import Mathlib

/- Verification development for the rusterizer clip-and-rasterize core.

   Conventions of the shallow embedding:
   - f32 values are modelled as exact rationals; a float literal is taken at
     its decimal value.
   - Rust panics in try_clip are modelled by Option with none meaning a
     panic: unwrap on an empty vector, usize subtraction underflow, and the
     debug assertions on the final polygon.  In the rasterizer, debug
     assertions are tracked by explicit predicates where a property needs
     them (clamp_bary_assert_ok) and noted in doc comments otherwise.
   - Arrays [T; 3] and [T; 4] are modelled as functions from Fin 3 / Fin 4,
     u8 bit masks as naturals, vectors as lists, and growable buffers as
     functions from the index type.
-/

/-- Homogeneous point, from math/point.rs Point4D (a 4-component vector with
    accessors x, y, z, w). -/
structure Point4D where
  x : ℚ
  y : ℚ
  z : ℚ
  w : ℚ
deriving DecidableEq

/-- Screen-space point with depth, from math/point.rs Point3D. -/
structure Point3D where
  x : ℚ
  y : ℚ
  z : ℚ
deriving DecidableEq

/-- Two dimensional point, from math/point.rs Point2D. -/
structure Point2D where
  x : ℚ
  y : ℚ
deriving DecidableEq

/-- Two dimensional vector, from math/vector.rs Vec2. -/
structure Vec2 where
  x : ℚ
  y : ℚ
deriving DecidableEq

/-- Dot product of 2D vectors, from math/vector.rs Vector::dot. -/
def Vec2.dot (a b : Vec2) : ℚ :=
  a.x * b.x + a.y * b.y

/-- Cross product of 2D vectors, from math/vector.rs Vector::cross for N = 2:
    self.x * other.y - other.x * self.y. -/
def Vec2.cross (a b : Vec2) : ℚ :=
  a.x * b.y - b.x * a.y

/-- Difference of 2D points is a vector, from math/point.rs Sub for Point. -/
def Point2D.sub (a b : Point2D) : Vec2 :=
  ⟨a.x - b.x, a.y - b.y⟩

/-- The xy projection of a homogeneous point, from math/point.rs Point::xy. -/
def Point4D.xy (p : Point4D) : Point2D :=
  ⟨p.x, p.y⟩

/-- The xy projection of a screen-space point. -/
def Point3D.xy (p : Point3D) : Point2D :=
  ⟨p.x, p.y⟩

/-- Color with float channels, from color.rs Color. -/
structure Color where
  r : ℚ
  g : ℚ
  b : ℚ
  a : ℚ
deriving DecidableEq

/-- Modelled from the spec: the per-vertex attribute bundle.  The generic
    graphics_primitives module used by rasterizer/ (VertexAttribute with a
    color and a uv pair) is not under src; spec section 3 describes it as
    color + UV, any linearly interpolable type, and the unit tests in
    rasterizer/clipping.rs construct it from a color and a [f32; 2] uv pair.
    All arithmetic on it is componentwise. -/
structure VertexAttribute where
  color : Color
  uv0 : ℚ
  uv1 : ℚ
deriving DecidableEq

/-- Componentwise difference of attribute bundles (modelled from the spec,
    linear interpolation support). -/
def VertexAttribute.sub (a b : VertexAttribute) : VertexAttribute :=
  ⟨⟨a.color.r - b.color.r, a.color.g - b.color.g, a.color.b - b.color.b,
    a.color.a - b.color.a⟩, a.uv0 - b.uv0, a.uv1 - b.uv1⟩

/-- Componentwise scaling of an attribute bundle (modelled from the spec). -/
def VertexAttribute.smul (a : VertexAttribute) (s : ℚ) : VertexAttribute :=
  ⟨⟨a.color.r * s, a.color.g * s, a.color.b * s, a.color.a * s⟩,
   a.uv0 * s, a.uv1 * s⟩

/-- Componentwise sum of attribute bundles (modelled from the spec). -/
def VertexAttribute.add (a b : VertexAttribute) : VertexAttribute :=
  ⟨⟨a.color.r + b.color.r, a.color.g + b.color.g, a.color.b + b.color.b,
    a.color.a + b.color.a⟩, a.uv0 + b.uv0, a.uv1 + b.uv1⟩

/-- Clip-space triangle: three homogeneous vertices with their attribute
    bundles, from graphics_primitives (fields vertices and
    vertex_attributes). -/
structure Triangle where
  v0 : Point4D
  v1 : Point4D
  v2 : Point4D
  a0 : VertexAttribute
  a1 : VertexAttribute
  a2 : VertexAttribute
deriving DecidableEq

/-- Result of clipping, from rasterizer/clipping.rs ClipResult. -/
inductive ClipResult where
  | Outside
  | Inside
  | Clipped (tris : List Triangle)
deriving DecidableEq

/-- Twice the signed area of a triangle from the xy coordinates of its
    vertices, from rasterizer/mod.rs triangle_2x_area. -/
def triangle_2x_area (p0 p1 p2 : Point2D) : ℚ :=
  Vec2.cross (p1.sub p0) (p2.sub p0)

/-- The epsilon used to cull degenerate triangles, 0.000001 in
    rasterizer/clipping.rs and rasterizer/mod.rs. -/
def CULL_DEGENERATE_TRIANGLE_AREA_EPS : ℚ := 1 / 1000000

/-- The six frustum planes, from rasterizer/clipping.rs ClipPlane. -/
inductive ClipPlane where
  | LEFT
  | RIGHT
  | BOTTOM
  | TOP
  | NEAR
  | FAR
deriving DecidableEq

/-- Boundary coordinate of a point for a clip plane, from
    rasterizer/clipping.rs distance_measure. -/
def distance_measure (plane : ClipPlane) (p : Point4D) : ℚ :=
  match plane with
  | .LEFT => p.w + p.x
  | .RIGHT => p.w - p.x
  | .BOTTOM => p.w + p.y
  | .TOP => p.w - p.y
  | .NEAR => p.w + p.z
  | .FAR => p.w - p.z

/-- Affine combination (1 - alpha) * p0 + alpha * p1 of homogeneous points,
    componentwise on all four coordinates, as used by compute_intersection in
    rasterizer/clipping.rs. -/
def point_lerp (p0 p1 : Point4D) (alpha : ℚ) : Point4D :=
  ⟨(1 - alpha) * p0.x + alpha * p1.x,
   (1 - alpha) * p0.y + alpha * p1.y,
   (1 - alpha) * p0.z + alpha * p1.z,
   (1 - alpha) * p0.w + alpha * p1.w⟩

/-- Intersection of the segment p0 p1 with a plane, from precomputed distance
    measures, from rasterizer/clipping.rs compute_intersection. -/
def compute_intersection (p0 : Point4D) (d0 : ℚ) (p1 : Point4D) (d1 : ℚ) :
    Point4D × ℚ :=
  let alpha := d0 / (d0 - d1)
  (point_lerp p0 p1 alpha, alpha)

/-- A polygon vertex: homogeneous position with its attribute bundle.  The
    source keeps two parallel vectors out_vertices and out_attrs that grow in
    lockstep; the embedding pairs them. -/
def Vtx : Type := Point4D × VertexAttribute

instance : DecidableEq Vtx := by
  unfold Vtx
  infer_instance

/-- Intersection vertex: position from compute_intersection, attribute
    linearly interpolated with the returned factor, as in the match arms of
    try_clip. -/
def intersect_vtx (prevV : Vtx) (prevDm : ℚ) (curV : Vtx) (curDm : ℚ) : Vtx :=
  let r := compute_intersection prevV.1 prevDm curV.1 curDm
  (r.1, ((curV.2.sub prevV.2).smul r.2).add prevV.2)

/-- One edge step of the Sutherland-Hodgman walk in try_clip: the match on
    (prev_distance_measure > 0.0, cur_distance_measure > 0.0) and the
    vertices it pushes. -/
def sh_edge_case (prevV curV : Vtx) (prevDm curDm : ℚ) : List Vtx :=
  if 0 < prevDm then
    if 0 < curDm then [curV]
    else [intersect_vtx prevV prevDm curV curDm]
  else
    if 0 < curDm then [intersect_vtx prevV prevDm curV curDm, curV]
    else []

/-- The edge walk of try_clip over one plane.  Each list element pairs the
    previous vertex (recomputed by index in the source) with the current one.
    The carried prevDm mirrors the mutable prev_distance_measure: the
    both-outside arm of the source reaches its continue statement, which
    skips the update prev_distance_measure = cur_distance_measure, so in that
    one case the carried value is left as it was. -/
def sh_walk (plane : ClipPlane) : List (Vtx × Vtx) → ℚ → List Vtx
  | [], _ => []
  | (prevV, curV) :: rest, prevDm =>
    let curDm := distance_measure plane curV.1
    if 0 < prevDm then
      if 0 < curDm then curV :: sh_walk plane rest curDm
      else intersect_vtx prevV prevDm curV curDm :: sh_walk plane rest curDm
    else
      if 0 < curDm then
        intersect_vtx prevV prevDm curV curDm :: curV :: sh_walk plane rest curDm
      else
        sh_walk plane rest prevDm

/-- The last element of a list, mirroring Vec::last. -/
def last_vtx : List Vtx → Option Vtx
  | [] => none
  | [v] => some v
  | _ :: v :: rest => last_vtx (v :: rest)

/-- Clipping the current polygon against one plane in try_clip: the previous
    vertex of element i is element (i + n - 1) % n, so the list of previous
    vertices is the last element followed by all but the last. -/
def sh_clip_plane (plane : ClipPlane) (vs : List Vtx) : List Vtx :=
  match last_vtx vs with
  | none => []
  | some lastV =>
      sh_walk plane ((lastV :: vs.dropLast).zip vs)
        (distance_measure plane lastV.1)

/-- The plane loop of try_clip.  At the start of each plane iteration the
    source reads in_vertices.last().unwrap(); on an empty polygon that unwrap
    panics, modelled as none. -/
def sh_planes : List ClipPlane → List Vtx → Option (List Vtx)
  | [], vs => some vs
  | p :: ps, vs =>
      if vs.isEmpty then none else sh_planes ps (sh_clip_plane p vs)

/-- Plane order, from rasterizer/clipping.rs CLIP_PLANES. -/
def CLIP_PLANES : List ClipPlane :=
  [.LEFT, .RIGHT, .BOTTOM, .TOP, .NEAR, .FAR]

/-- Fan triangulation from vertex 0: triangle (v0, v[i+1], v[i+2]) for i in
    0..n-2, as built at the end of try_clip. -/
def fan_triangulate : List Vtx → List Triangle
  | [] => []
  | v0 :: rest =>
      (rest.zip rest.tail).map fun pr =>
        ⟨v0.1, pr.1.1, pr.2.1, v0.2, pr.1.2, pr.2.2⟩

/-- Per-vertex x test of the fast checks in try_clip:
    v.x >= -v.w and v.x <= v.w. -/
def inside_x (p : Point4D) : Bool :=
  decide (-p.w ≤ p.x) && decide (p.x ≤ p.w)

/-- Per-vertex y test of the fast checks in try_clip. -/
def inside_y (p : Point4D) : Bool :=
  decide (-p.w ≤ p.y) && decide (p.y ≤ p.w)

/-- Per-vertex z test of the fast checks in try_clip. -/
def inside_z (p : Point4D) : Bool :=
  decide (-p.w ≤ p.z) && decide (p.z ≤ p.w)

/-- Per-vertex strict x outside test of the fast checks in try_clip:
    v.x < -v.w or v.x > v.w. -/
def outside_x (p : Point4D) : Bool :=
  decide (p.x < -p.w) || decide (p.w < p.x)

/-- Per-vertex strict y outside test of the fast checks in try_clip. -/
def outside_y (p : Point4D) : Bool :=
  decide (p.y < -p.w) || decide (p.w < p.y)

/-- Per-vertex strict z outside test of the fast checks in try_clip. -/
def outside_z (p : Point4D) : Bool :=
  decide (p.z < -p.w) || decide (p.w < p.z)

/-- The vertex list of a triangle in order. -/
def Triangle.verts (t : Triangle) : List Point4D :=
  [t.v0, t.v1, t.v2]

/-- The paired vertex and attribute list of a triangle in order. -/
def Triangle.vtxs (t : Triangle) : List Vtx :=
  [(t.v0, t.a0), (t.v1, t.a1), (t.v2, t.a2)]

/-- The clipper, from rasterizer/clipping.rs try_clip.  Order of checks as in
    the source: degenerate area cull, per-axis all-outside cull, all-inside
    fast path, then the Sutherland-Hodgman walk over the six planes.  The
    early return of Outside for an empty result that the comment above the
    fan loop describes is commented out in the source; instead the source
    asserts non-emptiness and computes out_vertices.len() - 2, a usize
    subtraction, so a final polygon with fewer than 3 vertices panics,
    modelled as none. -/
def try_clip (t : Triangle) : Option ClipResult :=
  if abs (triangle_2x_area t.v0.xy t.v1.xy t.v2.xy) <
      CULL_DEGENERATE_TRIANGLE_AREA_EPS then
    some .Outside
  else if t.verts.all outside_x || t.verts.all outside_y ||
      t.verts.all outside_z then
    some .Outside
  else if t.verts.all inside_x && t.verts.all inside_y &&
      t.verts.all inside_z then
    some .Inside
  else
    match sh_planes CLIP_PLANES t.vtxs with
    | none => none
    | some outVs =>
        if outVs.length < 3 then none
        else some (.Clipped (fan_triangulate outVs))

/-- Modelled from the spec, for comparison with the code (claim C5): the
    same walk with the classification rule stated by the spec, inside a
    plane iff the boundary coordinate is greater than or equal to 0. -/
def sh_walk_ge (plane : ClipPlane) : List (Vtx × Vtx) → ℚ → List Vtx
  | [], _ => []
  | (prevV, curV) :: rest, prevDm =>
    let curDm := distance_measure plane curV.1
    if 0 ≤ prevDm then
      if 0 ≤ curDm then curV :: sh_walk_ge plane rest curDm
      else intersect_vtx prevV prevDm curV curDm :: sh_walk_ge plane rest curDm
    else
      if 0 ≤ curDm then
        intersect_vtx prevV prevDm curV curDm :: curV :: sh_walk_ge plane rest curDm
      else
        sh_walk_ge plane rest prevDm

/-- Modelled from the spec (claim C5): one plane of the walk under the
    greater-or-equal classification rule. -/
def sh_clip_plane_ge (plane : ClipPlane) (vs : List Vtx) : List Vtx :=
  match last_vtx vs with
  | none => []
  | some lastV =>
      sh_walk_ge plane ((lastV :: vs.dropLast).zip vs)
        (distance_measure plane lastV.1)

/-- Modelled from the spec (claim C5): the plane loop under the
    greater-or-equal classification rule. -/
def sh_planes_ge : List ClipPlane → List Vtx → Option (List Vtx)
  | [], vs => some vs
  | p :: ps, vs =>
      if vs.isEmpty then none else sh_planes_ge ps (sh_clip_plane_ge p vs)

/-- Modelled from the spec (claim C5): try_clip with endpoints classified as
    inside a plane iff the boundary coordinate is greater than or equal
    to 0, everything else unchanged. -/
def try_clip_spec_ge (t : Triangle) : Option ClipResult :=
  if abs (triangle_2x_area t.v0.xy t.v1.xy t.v2.xy) <
      CULL_DEGENERATE_TRIANGLE_AREA_EPS then
    some .Outside
  else if t.verts.all outside_x || t.verts.all outside_y ||
      t.verts.all outside_z then
    some .Outside
  else if t.verts.all inside_x && t.verts.all inside_y &&
      t.verts.all inside_z then
    some .Inside
  else
    match sh_planes_ge CLIP_PLANES t.vtxs with
    | none => none
    | some outVs =>
        if outVs.length < 3 then none
        else some (.Clipped (fan_triangulate outVs))

/-- A constant attribute bundle used for concrete inputs, matching the red
    attribute used by the unit tests in rasterizer/clipping.rs. -/
def red_attr : VertexAttribute :=
  ⟨⟨1, 0, 0, 1⟩, 0, 0⟩

/- Validation of the embedding against the unit tests of
   rasterizer/clipping.rs: fully_inside, cull_degenerate and
   partial_right_side_overlap (the latter in exact arithmetic, which agrees
   with the expected f32 values of the test). -/
example :
    try_clip ⟨⟨-1/2, 0, 0, 1⟩, ⟨0, 1, 0, 1⟩, ⟨1/2, 0, 0, 1⟩,
      red_attr, red_attr, red_attr⟩ = some .Inside := by
  norm_num [try_clip, triangle_2x_area, Vec2.cross, Point2D.sub, Point4D.xy,
    CULL_DEGENERATE_TRIANGLE_AREA_EPS, abs_lt, Triangle.verts, inside_x,
    inside_y, inside_z, outside_x, outside_y, outside_z]

example :
    try_clip ⟨⟨0, 0, 0, 1⟩, ⟨0, 1, 0, 1⟩, ⟨0, 0, 0, 1⟩,
      red_attr, red_attr, red_attr⟩ = some .Outside := by
  norm_num [try_clip, triangle_2x_area, Vec2.cross, Point2D.sub, Point4D.xy,
    CULL_DEGENERATE_TRIANGLE_AREA_EPS, abs_lt]

example :
    try_clip ⟨⟨3/2, 0, 0, 2⟩, ⟨5/2, 1, 0, 2⟩, ⟨3/5, 1, 0, 2⟩,
      red_attr, red_attr, red_attr⟩ =
    some (.Clipped
      [⟨⟨3/2, 0, 0, 2⟩, ⟨2, 1/2, 0, 2⟩, ⟨2, 1, 0, 2⟩,
        red_attr, red_attr, red_attr⟩,
       ⟨⟨3/2, 0, 0, 2⟩, ⟨2, 1, 0, 2⟩, ⟨3/5, 1, 0, 2⟩,
        red_attr, red_attr, red_attr⟩]) := by
  norm_num [try_clip, triangle_2x_area, Vec2.cross, Point2D.sub, Point4D.xy,
    CULL_DEGENERATE_TRIANGLE_AREA_EPS, abs_lt, Triangle.verts, Triangle.vtxs,
    inside_x, inside_y, inside_z, outside_x, outside_y, outside_z,
    sh_planes, CLIP_PLANES, sh_clip_plane, last_vtx, sh_walk,
    distance_measure, intersect_vtx, compute_intersection, point_lerp,
    VertexAttribute.sub, VertexAttribute.smul, VertexAttribute.add,
    fan_triangulate, red_attr]

/-- Concrete input for claim C1: a triangle poking past the RIGHT plane by a
    sliver, all coordinates dyadic so the f32 source computes them exactly.
    Its doubled area is -2 ^ (-19), above the cull epsilon. -/
def c1_parent : Triangle :=
  ⟨⟨1023/1024, 0, 0, 1⟩, ⟨1025/1024, 1/2048, 0, 1⟩, ⟨1025/1024, -1/2048, 0, 1⟩,
   red_attr, red_attr, red_attr⟩

/-- The single triangle try_clip produces for c1_parent.  Its doubled area is
    -2 ^ (-21), below the cull epsilon. -/
def c1_sliver : Triangle :=
  ⟨⟨1, -1/4096, 0, 1⟩, ⟨1023/1024, 0, 0, 1⟩, ⟨1, 1/4096, 0, 1⟩,
   red_attr, red_attr, red_attr⟩

/-- C1: the closure property fails on the code.  try_clip returns
    Clipped([c1_sliver]) for c1_parent, and re-clipping c1_sliver yields
    Outside (the degenerate-area cull fires, its doubled area being below
    1e-6), not Inside as the claim, the spec regression property, and the
    test test_clipped_tris_are_inside in rasterizer/clipping.rs require. -/
theorem c1_closure_fails :
    try_clip c1_parent = some (.Clipped [c1_sliver]) ∧
    try_clip c1_sliver = some .Outside := by
  constructor
  · norm_num [try_clip, triangle_2x_area, Vec2.cross, Point2D.sub, Point4D.xy,
      CULL_DEGENERATE_TRIANGLE_AREA_EPS, abs_lt, Triangle.verts, Triangle.vtxs,
      inside_x, inside_y, inside_z, outside_x, outside_y, outside_z,
      sh_planes, CLIP_PLANES, sh_clip_plane, last_vtx, sh_walk,
      distance_measure, intersect_vtx, compute_intersection, point_lerp,
      VertexAttribute.sub, VertexAttribute.smul, VertexAttribute.add,
      fan_triangulate, red_attr, c1_parent, c1_sliver]
  · norm_num [try_clip, triangle_2x_area, Vec2.cross, Point2D.sub, Point4D.xy,
      CULL_DEGENERATE_TRIANGLE_AREA_EPS, abs_lt, c1_sliver]

/-- Concrete input for claim C2: a triangle near the lower-left corner that
    escapes both fast culls (each axis has a vertex in range) but whose
    intersection with the view volume is empty; the polygon becomes empty
    when clipped against the BOTTOM plane. -/
def c2_tri : Triangle :=
  ⟨⟨-3, 0, 0, 1⟩, ⟨1, -4, 0, 1⟩, ⟨-3, -4, 0, 1⟩,
   red_attr, red_attr, red_attr⟩

/-- C2: when the polygon collapses to empty inside the plane loop, try_clip
    panics instead of returning Outside: the early return described by the
    claim is commented out in the source, and the next plane iteration calls
    in_vertices.last().unwrap() on an empty vector.  The panic is modelled
    as none. -/
theorem c2_empty_polygon_panics : try_clip c2_tri = none := by
  norm_num [try_clip, triangle_2x_area, Vec2.cross, Point2D.sub, Point4D.xy,
    CULL_DEGENERATE_TRIANGLE_AREA_EPS, abs_lt, Triangle.verts, Triangle.vtxs,
    inside_x, inside_y, inside_z, outside_x, outside_y, outside_z,
    sh_planes, CLIP_PLANES, sh_clip_plane, last_vtx, sh_walk,
    distance_measure, intersect_vtx, compute_intersection, point_lerp,
    VertexAttribute.sub, VertexAttribute.smul, VertexAttribute.add,
    red_attr, c2_tri]

/-- Concrete input for claim C5: vertex v1 = (1, 0, 0, 1) lies exactly on
    the RIGHT plane (boundary coordinate 0); v0 pokes past the TOP plane so
    the walk actually runs. -/
def c5_tri : Triangle :=
  ⟨⟨0, 2, 0, 1⟩, ⟨1, 0, 0, 1⟩, ⟨0, 0, 0, 1⟩,
   red_attr, red_attr, red_attr⟩

/-- C5 counterexample: the walk classifies a boundary coordinate of exactly 0
    as outside, not inside.  On c5_tri, whose middle vertex lies exactly on
    the RIGHT plane, the strict rule of the code emits that vertex twice
    (once as each neighbouring intersection point), producing 3 fan triangles
    with one degenerate, while the claimed greater-or-equal rule emits it
    once and produces 2; the two results differ. -/
theorem c5_onplane_counterexample :
    distance_measure .RIGHT ⟨1, 0, 0, 1⟩ = 0 ∧
    try_clip c5_tri =
      some (.Clipped
        [⟨⟨0, 1, 0, 1⟩, ⟨1/2, 1, 0, 1⟩, ⟨1, 0, 0, 1⟩,
          red_attr, red_attr, red_attr⟩,
         ⟨⟨0, 1, 0, 1⟩, ⟨1, 0, 0, 1⟩, ⟨1, 0, 0, 1⟩,
          red_attr, red_attr, red_attr⟩,
         ⟨⟨0, 1, 0, 1⟩, ⟨1, 0, 0, 1⟩, ⟨0, 0, 0, 1⟩,
          red_attr, red_attr, red_attr⟩]) ∧
    try_clip_spec_ge c5_tri =
      some (.Clipped
        [⟨⟨0, 1, 0, 1⟩, ⟨1/2, 1, 0, 1⟩, ⟨1, 0, 0, 1⟩,
          red_attr, red_attr, red_attr⟩,
         ⟨⟨0, 1, 0, 1⟩, ⟨1, 0, 0, 1⟩, ⟨0, 0, 0, 1⟩,
          red_attr, red_attr, red_attr⟩]) ∧
    try_clip c5_tri ≠ try_clip_spec_ge c5_tri := by
  have h1 : try_clip c5_tri =
      some (.Clipped
        [⟨⟨0, 1, 0, 1⟩, ⟨1/2, 1, 0, 1⟩, ⟨1, 0, 0, 1⟩,
          red_attr, red_attr, red_attr⟩,
         ⟨⟨0, 1, 0, 1⟩, ⟨1, 0, 0, 1⟩, ⟨1, 0, 0, 1⟩,
          red_attr, red_attr, red_attr⟩,
         ⟨⟨0, 1, 0, 1⟩, ⟨1, 0, 0, 1⟩, ⟨0, 0, 0, 1⟩,
          red_attr, red_attr, red_attr⟩]) := by
    norm_num [try_clip, triangle_2x_area, Vec2.cross, Point2D.sub, Point4D.xy,
      CULL_DEGENERATE_TRIANGLE_AREA_EPS, abs_lt, Triangle.verts, Triangle.vtxs,
      inside_x, inside_y, inside_z, outside_x, outside_y, outside_z,
      sh_planes, CLIP_PLANES, sh_clip_plane, last_vtx, sh_walk,
      distance_measure, intersect_vtx, compute_intersection, point_lerp,
      VertexAttribute.sub, VertexAttribute.smul, VertexAttribute.add,
      fan_triangulate, red_attr, c5_tri]
  have h2 : try_clip_spec_ge c5_tri =
      some (.Clipped
        [⟨⟨0, 1, 0, 1⟩, ⟨1/2, 1, 0, 1⟩, ⟨1, 0, 0, 1⟩,
          red_attr, red_attr, red_attr⟩,
         ⟨⟨0, 1, 0, 1⟩, ⟨1, 0, 0, 1⟩, ⟨0, 0, 0, 1⟩,
          red_attr, red_attr, red_attr⟩]) := by
    norm_num [try_clip_spec_ge, triangle_2x_area, Vec2.cross, Point2D.sub,
      Point4D.xy, CULL_DEGENERATE_TRIANGLE_AREA_EPS, abs_lt, Triangle.verts,
      Triangle.vtxs, inside_x, inside_y, inside_z, outside_x, outside_y,
      outside_z, sh_planes_ge, CLIP_PLANES, sh_clip_plane_ge, last_vtx,
      sh_walk_ge, distance_measure, intersect_vtx, compute_intersection,
      point_lerp, VertexAttribute.sub, VertexAttribute.smul,
      VertexAttribute.add, fan_triangulate, red_attr, c5_tri]
  refine ⟨by norm_num [distance_measure], h1, h2, ?_⟩
  rw [h1, h2]
  simp

/-- Helper: the last element returned by last_vtx is a member of the list. -/
theorem last_vtx_mem : ∀ (vs : List Vtx) (v : Vtx), last_vtx vs = some v → v ∈ vs
  | [], _, h => by simp [last_vtx] at h
  | [a], v, h => by
      simp only [last_vtx, Option.some.injEq] at h
      simp [h]
  | a :: b :: rest, v, h => by
      have hm := last_vtx_mem (b :: rest) v (by simpa [last_vtx] using h)
      exact List.mem_cons_of_mem _ hm

/-- Helper: off the boundary, the strict walk of the code and the
    greater-or-equal walk of the spec take the same branches. -/
theorem sh_walk_eq_ge (plane : ClipPlane) :
    ∀ (l : List (Vtx × Vtx)) (d : ℚ),
      (∀ pr ∈ l, distance_measure plane pr.2.1 ≠ 0) → d ≠ 0 →
      sh_walk plane l d = sh_walk_ge plane l d := by
  intro l
  induction l with
  | nil => intro d _ _; rfl
  | cons pr rest ih =>
    intro d h hd
    obtain ⟨p, c⟩ := pr
    have hc : distance_measure plane c.1 ≠ 0 := h (p, c) (List.mem_cons_self _ _)
    have hrest : ∀ pr ∈ rest, distance_measure plane pr.2.1 ≠ 0 :=
      fun pr hm => h pr (List.mem_cons_of_mem _ hm)
    simp only [sh_walk, sh_walk_ge]
    rcases hd.lt_or_lt with hdlt | hdgt
    · rw [if_neg (not_lt.mpr hdlt.le), if_neg (not_le.mpr hdlt)]
      rcases hc.lt_or_lt with hclt | hcgt
      · rw [if_neg (not_lt.mpr hclt.le), if_neg (not_le.mpr hclt)]
        exact ih d hrest hd
      · rw [if_pos hcgt, if_pos hcgt.le]
        rw [ih _ hrest hc]
    · rw [if_pos hdgt, if_pos hdgt.le]
      rcases hc.lt_or_lt with hclt | hcgt
      · rw [if_neg (not_lt.mpr hclt.le), if_neg (not_le.mpr hclt)]
        rw [ih _ hrest hc]
      · rw [if_pos hcgt, if_pos hcgt.le]
        rw [ih _ hrest hc]

/-- C5 (amended): in the walk of try_clip an endpoint is classified as
    inside a plane iff its boundary coordinate is strictly positive; a vertex
    with boundary coordinate exactly 0 is treated as outside.  Consequently,
    on any polygon none of whose vertices lies exactly on the plane, the
    clipping pass of the code coincides with the pass using the
    greater-or-equal rule stated by the spec. -/
theorem c5_strict_classification (plane : ClipPlane) (vs : List Vtx)
    (h : ∀ v ∈ vs, distance_measure plane v.1 ≠ 0) :
    sh_clip_plane plane vs = sh_clip_plane_ge plane vs := by
  unfold sh_clip_plane sh_clip_plane_ge
  cases e : last_vtx vs with
  | none => rfl
  | some lastV =>
    have hlast : lastV ∈ vs := last_vtx_mem vs lastV e
    refine sh_walk_eq_ge plane _ _ ?_ (h lastV hlast)
    intro pr hpr
    exact h pr.2 (List.of_mem_zip hpr).2

/-- C5 witness: the amended agreement instantiated on a concrete one-vertex
    polygon off the NEAR plane. -/
theorem c5_strict_classification_witness :
    (∀ v ∈ [((⟨0, 0, 0, 1⟩ : Point4D), red_attr)],
        distance_measure .NEAR v.1 ≠ 0) ∧
    sh_clip_plane .NEAR [(⟨0, 0, 0, 1⟩, red_attr)] =
      sh_clip_plane_ge .NEAR [(⟨0, 0, 0, 1⟩, red_attr)] := by
  have h : ∀ v ∈ [((⟨0, 0, 0, 1⟩ : Point4D), red_attr)],
      distance_measure .NEAR v.1 ≠ 0 := by
    intro v hv
    simp only [List.mem_singleton] at hv
    subst hv
    norm_num [distance_measure]
  exact ⟨h, c5_strict_classification .NEAR _ h⟩

/-- C7: a clip-space triangle whose absolute doubled area is below the 1e-6
    epsilon is returned as Outside by the first statement of try_clip,
    whatever its vertices do on the frustum planes. -/
theorem c7_degenerate_cull (t : Triangle)
    (h : abs (triangle_2x_area t.v0.xy t.v1.xy t.v2.xy) <
      CULL_DEGENERATE_TRIANGLE_AREA_EPS) :
    try_clip t = some .Outside := by
  unfold try_clip
  rw [if_pos h]

/-- C7 witness: the degenerate scenario of the spec (two identical vertices)
    hits the cull. -/
theorem c7_degenerate_cull_witness :
    abs (triangle_2x_area (⟨0, 0⟩ : Point2D) ⟨0, 1⟩ ⟨0, 0⟩) <
      CULL_DEGENERATE_TRIANGLE_AREA_EPS ∧
    try_clip ⟨⟨0, 0, 0, 1⟩, ⟨0, 1, 0, 1⟩, ⟨0, 0, 0, 1⟩,
      red_attr, red_attr, red_attr⟩ = some .Outside := by
  have h : abs (triangle_2x_area (⟨0, 0⟩ : Point2D) ⟨0, 1⟩ ⟨0, 0⟩) <
      CULL_DEGENERATE_TRIANGLE_AREA_EPS := by
    norm_num [triangle_2x_area, Vec2.cross, Point2D.sub,
      CULL_DEGENERATE_TRIANGLE_AREA_EPS]
  exact ⟨h, c7_degenerate_cull _ h⟩

/-- Number of MSAA samples per pixel, from rasterizer/mod.rs N_MSAA_SAMPLES. -/
def N_MSAA_SAMPLES : ℕ := 4

/-- Coverage mask bit read, from rasterizer/mod.rs CoverageMask::get:
    ((1 << i) & self.mask) != 0.  The mask is a u8 value modelled as ℕ. -/
def coverage_get (mask : ℕ) (i : Fin 4) : Bool :=
  decide (((1 <<< i.val) &&& mask) ≠ 0)

/-- Coverage mask bit write, from rasterizer/mod.rs CoverageMask::set:
    (self.mask & !(1 << i)) | (v << i), the u8 complement being xor with
    255. -/
def coverage_set (mask : ℕ) (i : Fin 4) (v : Bool) : ℕ :=
  (mask &&& (255 ^^^ (1 <<< i.val))) ||| ((if v then 1 else 0) <<< i.val)

/-- Helper: the only set bit of the literal 1. -/
theorem testBit_one_eq (k : ℕ) : (1 : ℕ).testBit k = decide (0 = k) := by
  have h1 : (1 : ℕ) = 2 ^ 0 := by norm_num
  rw [h1, Nat.testBit_two_pow]

/-- Helper: coverage_get reads the bit at index i. -/
theorem coverage_get_testBit (m : ℕ) (i : Fin 4) :
    coverage_get m i = m.testBit i.val := by
  unfold coverage_get
  rw [Nat.one_shiftLeft, Nat.and_comm, Nat.and_two_pow]
  have hp : 2 ^ i.val ≠ 0 :=
    Nat.pos_iff_ne_zero.mp (Nat.pos_pow_of_pos i.val (by norm_num))
  cases h : m.testBit i.val <;> simp [h, hp]

/-- Helper: reading back a coverage bit after a write. -/
theorem coverage_get_set (m : ℕ) (i j : Fin 4) (v : Bool) :
    coverage_get (coverage_set m j v) i =
      if i = j then v else coverage_get m i := by
  have h255 : (255 : ℕ) = 2 ^ 8 - 1 := by norm_num
  rw [coverage_get_testBit]
  unfold coverage_set
  rw [Nat.one_shiftLeft, h255, Nat.testBit_or, Nat.testBit_and, Nat.testBit_xor,
    Nat.testBit_two_pow_sub_one, Nat.testBit_two_pow, Nat.testBit_shiftLeft]
  have hi8 : i.val < 8 := by omega
  rcases eq_or_ne i j with rfl | hne
  · cases v
    · simp [hi8, Nat.zero_testBit]
    · simp [hi8, testBit_one_eq]
  · have hne' : j.val ≠ i.val := fun hh => hne (Fin.ext hh.symm)
    rw [if_neg hne, coverage_get_testBit]
    cases v
    · simp [hi8, hne', Nat.zero_testBit]
    · simp [hi8, hne', testBit_one_eq]
      intro hle
      omega

/-- The rotated grid sample pattern, from rasterizer/mod.rs
    RGSS_SAMPLE_PATTERN. -/
def RGSS_SAMPLE_PATTERN : Fin 4 → ℚ × ℚ
  | 0 => (5/8, 1/8)
  | 1 => (7/8, 5/8)
  | 2 => (3/8, 7/8)
  | 3 => (1/8, 3/8)

/-- Sample x coordinate for pixel column x, sample i. -/
def sample_x (x : ℕ) (i : Fin 4) : ℚ :=
  (x : ℚ) + (RGSS_SAMPLE_PATTERN i).1

/-- Sample y coordinate for pixel row y, sample i. -/
def sample_y (y : ℕ) (i : Fin 4) : ℚ :=
  (y : ℚ) + (RGSS_SAMPLE_PATTERN i).2

/-- Per-triangle edge function state, from rasterizer/mod.rs EdgeFunctions. -/
structure EdgeFunctions where
  points : Fin 3 → Point2D
  normals : Fin 3 → Vec2
  coverage_evaluated : Fin 4 → Fin 3 → ℚ
  coverage_mask : ℕ

/-- The three edge functions at a point, from rasterizer/mod.rs
    EdgeFunctions::eval_single: normals[k] . (p - points[k]). -/
def EdgeFunctions.eval_single (ef : EdgeFunctions) (x y : ℚ) : Fin 3 → ℚ :=
  fun k => (ef.normals k).dot ((Point2D.mk x y).sub (ef.points k))

/-- One conjunct of EdgeFunctions::inside in rasterizer/mod.rs: the early
    return chain val > 0, val < 0, normal.x > 0, normal.x < 0,
    normal.y < 0. -/
def inside_edge (val : ℚ) (n : Vec2) : Bool :=
  if 0 < val then true
  else if val < 0 then false
  else if 0 < n.x then true
  else if n.x < 0 then false
  else if n.y < 0 then true
  else false

/-- The inside test over the three edges, from rasterizer/mod.rs
    EdgeFunctions::inside. -/
def EdgeFunctions.inside (normals : Fin 3 → Vec2) (vals : Fin 3 → ℚ) : Bool :=
  inside_edge (vals 0) (normals 0) && inside_edge (vals 1) (normals 1) &&
    inside_edge (vals 2) (normals 2)

/-- One iteration of the sample loop of EdgeFunctions::eval in
    rasterizer/mod.rs: store the three edge values for sample i and set the
    coverage bit. -/
def eval_step (ef : EdgeFunctions) (x y : ℕ) (i : Fin 4) : EdgeFunctions :=
  let efs := ef.eval_single (sample_x x i) (sample_y y i)
  { ef with
    coverage_evaluated := Function.update ef.coverage_evaluated i efs
    coverage_mask :=
      coverage_set ef.coverage_mask i (EdgeFunctions.inside ef.normals efs) }

/-- The sample loop of EdgeFunctions::eval in rasterizer/mod.rs, unrolled
    over the four samples in loop order. -/
def EdgeFunctions.eval (ef : EdgeFunctions) (x y : ℕ) : EdgeFunctions :=
  eval_step (eval_step (eval_step (eval_step ef x y 0) x y 1) x y 2) x y 3

/-- Coverage query, from rasterizer/mod.rs EdgeFunctions::any_coverage and
    CoverageMask::any. -/
def EdgeFunctions.any_coverage (ef : EdgeFunctions) : Bool :=
  decide (ef.coverage_mask ≠ 0)

/-- Helper: characterisation of one conjunct of the inside test. -/
theorem inside_edge_iff (v : ℚ) (n : Vec2) :
    inside_edge v n = true ↔
      0 < v ∨ (v = 0 ∧ (0 < n.x ∨ (n.x = 0 ∧ n.y < 0))) := by
  unfold inside_edge
  split_ifs with h1 h2 h3 h4 h5
  · simp [h1]
  · simp [h1, h2.ne]
  · have hv0 : v = 0 := le_antisymm (not_lt.mp h1) (not_lt.mp h2)
    simp [hv0, h3]
  · simp [h1, h3, h4.ne]
  · have hv0 : v = 0 := le_antisymm (not_lt.mp h1) (not_lt.mp h2)
    have hx0 : n.x = 0 := le_antisymm (not_lt.mp h3) (not_lt.mp h4)
    simp [hv0, hx0, h5]
  · have hx0 : n.x = 0 := le_antisymm (not_lt.mp h3) (not_lt.mp h4)
    simp [h1, hx0, h5]

/-- Helper: characterisation of the three-edge inside test. -/
theorem inside_iff (normals : Fin 3 → Vec2) (vals : Fin 3 → ℚ) :
    EdgeFunctions.inside normals vals = true ↔
      ∀ k : Fin 3,
        0 < vals k ∨
          (vals k = 0 ∧
            (0 < (normals k).x ∨ ((normals k).x = 0 ∧ (normals k).y < 0))) := by
  unfold EdgeFunctions.inside
  rw [Bool.and_eq_true, Bool.and_eq_true, inside_edge_iff, inside_edge_iff,
    inside_edge_iff]
  constructor
  · rintro ⟨⟨h0, h1⟩, h2⟩ k
    fin_cases k <;> assumption
  · intro h
    exact ⟨⟨h 0, h 1⟩, h 2⟩

/-- Helper: eval_step leaves the normals unchanged. -/
theorem eval_step_normals (ef : EdgeFunctions) (x y : ℕ) (i : Fin 4) :
    (eval_step ef x y i).normals = ef.normals := rfl

/-- Helper: eval_step does not change the fields eval_single reads. -/
theorem eval_step_single (ef : EdgeFunctions) (x y : ℕ) (i : Fin 4)
    (a b : ℚ) :
    (eval_step ef x y i).eval_single a b = ef.eval_single a b := rfl

/-- Helper: the mask written by eval_step. -/
theorem eval_step_mask (ef : EdgeFunctions) (x y : ℕ) (i : Fin 4) :
    (eval_step ef x y i).coverage_mask =
      coverage_set ef.coverage_mask i
        (EdgeFunctions.inside ef.normals
          (ef.eval_single (sample_x x i) (sample_y y i))) := rfl

/-- Helper: after eval, the coverage bit of sample i is the inside test of
    the edge values at that sample. -/
theorem eval_mask_bit (ef : EdgeFunctions) (x y : ℕ) (i : Fin 4) :
    coverage_get (ef.eval x y).coverage_mask i =
      EdgeFunctions.inside ef.normals
        (ef.eval_single (sample_x x i) (sample_y y i)) := by
  fin_cases i <;>
    simp [EdgeFunctions.eval, eval_step_mask, eval_step_normals,
      eval_step_single, coverage_get_set]

/-- C4: for every edge function state and every pixel and sub-pixel sample,
    the coverage bit computed by EdgeFunctions::eval is set iff for each of
    the three edges the edge value at the sample is strictly positive, or it
    is zero and the tie-break holds: the edge normal has positive x, or zero
    x and negative y. -/
theorem c4_coverage_rule (ef : EdgeFunctions) (x y : ℕ) (i : Fin 4) :
    coverage_get (ef.eval x y).coverage_mask i = true ↔
      ∀ k : Fin 3,
        0 < ef.eval_single (sample_x x i) (sample_y y i) k ∨
          (ef.eval_single (sample_x x i) (sample_y y i) k = 0 ∧
            (0 < (ef.normals k).x ∨
              ((ef.normals k).x = 0 ∧ (ef.normals k).y < 0))) := by
  rw [eval_mask_bit, inside_iff]

/-- Helper: a three element array [T; 3] as a function from Fin 3. -/
def fin3 {α : Type} (a b c : α) : Fin 3 → α
  | 0 => a
  | 1 => b
  | 2 => c

/-- Clamp to the unit interval, from rasterizer/mod.rs clamp_bary:
    x.clamp(0.0, 1.0), which is max then min. -/
def clamp_bary (x : ℚ) : ℚ :=
  min (max x 0) 1

/-- The debug assertion inside clamp_bary: the argument lies within
    [0 - 1e-4, 1 + 1e-4]. -/
def clamp_bary_assert_ok (x : ℚ) : Prop :=
  0 - 1/10000 ≤ x ∧ x ≤ 1 + 1/10000

/-- Screen-space triangle state, from rasterizer/mod.rs RasterizerTriangle. -/
structure RasterizerTriangle where
  edge_functions : EdgeFunctions
  depths_camera_space : Fin 3 → ℚ
  depths : Fin 3 → ℚ
  attributes : Fin 3 → VertexAttribute
  inv_2x_area : ℚ

/-- Construction of the screen-space triangle, from rasterizer/mod.rs
    RasterizerTriangle::new: clockwise edge vectors rotated into inward
    normals, inverse doubled area, fresh coverage state. -/
def RasterizerTriangle.new (vertices : Fin 3 → Point3D)
    (depths_camera_space : Fin 3 → ℚ) (attributes : Fin 3 → VertexAttribute) :
    RasterizerTriangle :=
  let n0 : Vec2 := ⟨-((vertices 1).y - (vertices 0).y),
                    (vertices 1).x - (vertices 0).x⟩
  let n1 : Vec2 := ⟨-((vertices 2).y - (vertices 1).y),
                    (vertices 2).x - (vertices 1).x⟩
  let n2 : Vec2 := ⟨-((vertices 0).y - (vertices 2).y),
                    (vertices 0).x - (vertices 2).x⟩
  { edge_functions :=
      { points := fun k => (vertices k).xy
        normals := fin3 n0 n1 n2
        coverage_evaluated := fun _ _ => 0
        coverage_mask := 0 }
    depths_camera_space := depths_camera_space
    depths := fun k => (vertices k).z
    attributes := attributes
    inv_2x_area :=
      1 / triangle_2x_area (vertices 0).xy (vertices 1).xy (vertices 2).xy }

/-- Transient fragment state, from rasterizer/mod.rs Fragment. -/
structure Fragment where
  sampled_depths : Fin 4 → ℚ
  edge_functions : EdgeFunctions
  depths_camera_space : Fin 3 → ℚ
  triangle_attributes : Fin 3 → VertexAttribute

/-- The depth interpolation closure inside RasterizerTriangle::fragment:
    linear barycentrics from the stored edge values and inv_2x_area, used
    only for z. -/
def interpolate_depth (tri : RasterizerTriangle) (efs : Fin 3 → ℚ) : ℚ :=
  let bary0 := clamp_bary (efs 1 * tri.inv_2x_area)
  let bary1 := clamp_bary (efs 2 * tri.inv_2x_area)
  let bary2 := clamp_bary (1 - bary0 - bary1)
  bary0 * tri.depths 0 + bary1 * tri.depths 1 + bary2 * tri.depths 2

/-- Fragment creation, from rasterizer/mod.rs RasterizerTriangle::fragment:
    depths of covered samples are interpolated, the rest stay 0. -/
def RasterizerTriangle.fragment (tri : RasterizerTriangle) : Fragment :=
  { sampled_depths := fun i =>
      if coverage_get tri.edge_functions.coverage_mask i then
        interpolate_depth tri (tri.edge_functions.coverage_evaluated i)
      else 0
    edge_functions := tri.edge_functions
    depths_camera_space := tri.depths_camera_space
    triangle_attributes := tri.attributes }

/-- First covered sample index, mirroring the break loop in
    Fragment::interpolate. -/
def first_covered (mask : ℕ) : Option (Fin 4) :=
  if coverage_get mask 0 then some 0
  else if coverage_get mask 1 then some 1
  else if coverage_get mask 2 then some 2
  else if coverage_get mask 3 then some 3
  else none

/-- Attribute interpolation, from rasterizer/mod.rs Fragment::interpolate:
    sample at the pixel centre under full coverage, else at the first
    covered sample; perspective correct barycentrics from the edge values
    divided by the camera-space depths, normalised, clamped. -/
def Fragment.interpolate (f : Fragment) (x y : ℕ) (cov : ℕ) :
    VertexAttribute :=
  let center : ℚ × ℚ := ((x : ℚ) + 1/2, (y : ℚ) + 1/2)
  let sample : ℚ × ℚ :=
    if cov = 15 then center
    else
      match first_covered cov with
      | some i => (sample_x x i, sample_y y i)
      | none => center
  let efs := f.edge_functions.eval_single sample.1 sample.2
  let f_u := efs 1 / f.depths_camera_space 0
  let f_v := efs 2 / f.depths_camera_space 1
  let f_w := efs 0 / f.depths_camera_space 2
  let sum := f_u + f_v + f_w
  let u := clamp_bary (f_u / sum)
  let v := clamp_bary (f_v / sum)
  let w := clamp_bary (1 - u - v)
  (((f.triangle_attributes 0).smul u).add
      ((f.triangle_attributes 1).smul v)).add
    ((f.triangle_attributes 2).smul w)

/-- Fragment coordinates handed to the shader, from rasterizer/mod.rs
    FragCoords. -/
structure FragCoords where
  x : ℚ
  y : ℚ
  depths : Fin 4 → ℚ
  mask : ℕ

/-- The fragment shader callback.  In the source it also receives the
    uniforms; they are opaque external state threaded through unchanged, so
    the embedding treats them as captured by the function. -/
def FragmentShader : Type :=
  FragCoords → VertexAttribute → Color

/-- The clear color 0xFF191919, from rasterizer/buffers.rs CLEAR_COLOR. -/
def CLEAR_COLOR : ℕ := 0xFF191919

/-- The clear depth f32::MAX, from rasterizer/buffers.rs CLEAR_DEPTH, as the
    exact rational value of the float. -/
def CLEAR_DEPTH : ℚ := 2 ^ 128 - 2 ^ 104

/-- Rust float to u32 cast: truncation toward zero, negative values
    saturate to 0 (values beyond u32::MAX do not occur here). -/
def f32_to_u32 (x : ℚ) : ℕ :=
  (Int.floor x).toNat

/-- Packing a color as ARGB, from color.rs Color::to_argb. -/
def Color.to_argb (c : Color) : ℕ :=
  (f32_to_u32 (c.a * 255) <<< 24) ||| (f32_to_u32 (c.r * 255) <<< 16) |||
    (f32_to_u32 (c.g * 255) <<< 8) ||| f32_to_u32 (c.b * 255)

/-- Multi-sampled color buffer, from rasterizer/buffers.rs ColorBuffer. -/
structure ColorBuffer where
  clear_buffer : ℕ → Fin 4 → ℕ
  buffer : ℕ → Fin 4 → ℕ
  resolve_buffer : ℕ → ℕ

/-- A fresh color buffer, from ColorBuffer::new: every sample and the
    resolve buffer hold CLEAR_COLOR. -/
def ColorBuffer.new : ColorBuffer :=
  ⟨fun _ _ => CLEAR_COLOR, fun _ _ => CLEAR_COLOR, fun _ => CLEAR_COLOR⟩

/-- Writing one sample of one pixel, from ColorBuffer::set_pixel. -/
def ColorBuffer.set_pixel (cb : ColorBuffer) (pixel_idx : ℕ) (mask_idx : Fin 4)
    (color : Color) : ColorBuffer :=
  { cb with
    buffer := Function.update cb.buffer pixel_idx
      (Function.update (cb.buffer pixel_idx) mask_idx color.to_argb) }

/-- Box filter resolve of the four samples of a pixel, from
    ColorBuffer::box_filter_color: sum each channel, divide by the sample
    count, repack with opaque alpha. -/
def ColorBuffer.box_filter_color (colors : Fin 4 → ℕ) : ℕ :=
  let red_sum := ((colors 0 &&& 0x00FF0000) >>> 16) +
    ((colors 1 &&& 0x00FF0000) >>> 16) + ((colors 2 &&& 0x00FF0000) >>> 16) +
    ((colors 3 &&& 0x00FF0000) >>> 16)
  let green_sum := ((colors 0 &&& 0x0000FF00) >>> 8) +
    ((colors 1 &&& 0x0000FF00) >>> 8) + ((colors 2 &&& 0x0000FF00) >>> 8) +
    ((colors 3 &&& 0x0000FF00) >>> 8)
  let blue_sum := (colors 0 &&& 0x000000FF) + (colors 1 &&& 0x000000FF) +
    (colors 2 &&& 0x000000FF) + (colors 3 &&& 0x000000FF)
  (0xFF <<< 24) ||| ((red_sum / 4) <<< 16) ||| ((green_sum / 4) <<< 8) |||
    (blue_sum / 4)

/-- Multi-sampled depth buffer, from rasterizer/buffers.rs DepthBuffer. -/
structure DepthBuffer where
  buffer : ℕ → Fin 4 → ℚ
  clear_buffer : ℕ → Fin 4 → ℚ

/-- A fresh depth buffer, from DepthBuffer::new: every sample holds
    CLEAR_DEPTH so everything is in front. -/
def DepthBuffer.new : DepthBuffer :=
  ⟨fun _ _ => CLEAR_DEPTH, fun _ _ => CLEAR_DEPTH⟩

/-- Reading the four sample depths of a pixel, from DepthBuffer::get_depth. -/
def DepthBuffer.get_depth (db : DepthBuffer) (idx : ℕ) : Fin 4 → ℚ :=
  db.buffer idx

/-- Writing one sample depth, from DepthBuffer::set_depth.  The debug
    assertion that the depth lies in [0, 1] is tracked by no claim and is
    not modelled. -/
def DepthBuffer.set_depth (db : DepthBuffer) (idx : ℕ) (mask_idx : Fin 4)
    (depth : ℚ) : DepthBuffer :=
  { db with
    buffer := Function.update db.buffer idx
      (Function.update (db.buffer idx) mask_idx depth) }

/-- Pixel bounding box, from rasterizer/bounding_box.rs PixelBoundingBox. -/
structure PixelBoundingBox where
  min_x : ℕ
  max_x : ℕ
  min_y : ℕ
  max_y : ℕ

/-- The largest finite f32, the fold seed of the bounding box computation. -/
def F32_MAX : ℚ := 2 ^ 128 - 2 ^ 104

/-- Bounding box of three screen points, from the From impl in
    rasterizer/bounding_box.rs: fold min/max seeded with f32::MAX / f32::MIN,
    then floor the minima and ceil the maxima and cast to usize (negative
    values saturate to 0). -/
def pixel_bounding_box (points : Fin 3 → Point2D) : PixelBoundingBox :=
  let minx := min (min (min F32_MAX (points 0).x) (points 1).x) (points 2).x
  let maxx := max (max (max (-F32_MAX) (points 0).x) (points 1).x) (points 2).x
  let miny := min (min (min F32_MAX (points 0).y) (points 1).y) (points 2).y
  let maxy := max (max (max (-F32_MAX) (points 0).y) (points 1).y) (points 2).y
  ⟨(Int.floor minx).toNat, (Int.ceil maxx).toNat,
   (Int.floor miny).toNat, (Int.ceil maxy).toNat⟩

/-- The rasterizer state, from rasterizer/mod.rs Rasterizer: two buffer
    sets, the current buffer index, and the dimensions. -/
structure Rasterizer where
  color_buffers : Fin 2 → ColorBuffer
  depth_buffers : Fin 2 → DepthBuffer
  buf_idx : Fin 2
  width : ℕ
  height : ℕ

/-- A fresh rasterizer, from Rasterizer::new. -/
def Rasterizer.new (width height : ℕ) : Rasterizer :=
  ⟨fun _ => ColorBuffer.new, fun _ => DepthBuffer.new, 0, width, height⟩

/-- Perspective divide, from Rasterizer::perspective_divide: divide x, y, z
    of each vertex by its w and keep w. -/
def Rasterizer.perspective_divide (t : Triangle) : Triangle :=
  ⟨⟨t.v0.x / t.v0.w, t.v0.y / t.v0.w, t.v0.z / t.v0.w, t.v0.w⟩,
   ⟨t.v1.x / t.v1.w, t.v1.y / t.v1.w, t.v1.z / t.v1.w, t.v1.w⟩,
   ⟨t.v2.x / t.v2.w, t.v2.y / t.v2.w, t.v2.z / t.v2.w, t.v2.w⟩,
   t.a0, t.a1, t.a2⟩

/-- The per-vertex mapping of Rasterizer::viewport_transform with
    zmin = 0.0 and zmax = 1.0: x scaled to pixels, y flipped because the
    color buffer starts at the upper left, z remapped to [zmin, zmax]. -/
def viewport_new_vert (width height : ℕ) (v : Point4D) : Point3D :=
  let zmin : ℚ := 0
  let zmax : ℚ := 1
  ⟨(width : ℚ) * (v.x + 1) / 2,
   (height : ℚ) * (1 - (v.y + 1) / 2),
   (v.z + 1) * (1/2) * (zmax - zmin) + zmin⟩

/-- Viewport transform, from Rasterizer::viewport_transform: map the three
    vertices, keep the clip-space w values as camera-space depths, build the
    screen triangle.  The debug assertions that NDC coordinates lie in
    [-1, 1] are tracked by no claim and are not modelled. -/
def Rasterizer.viewport_transform (width height : ℕ) (t : Triangle) :
    RasterizerTriangle :=
  RasterizerTriangle.new
    (fin3 (viewport_new_vert width height t.v0)
      (viewport_new_vert width height t.v1)
      (viewport_new_vert width height t.v2))
    (fin3 t.v0.w t.v1.w t.v2.w)
    (fin3 t.a0 t.a1 t.a2)

/-- One iteration of the loop in Rasterizer::depth_coverage: samples covered
    by the triangle keep their bit iff the new depth is strictly below the
    stored one. -/
def dc_step (cur_depths : Fin 4 → ℚ) (cov : ℕ) (sampled_depths : Fin 4 → ℚ)
    (acc : ℕ) (i : Fin 4) : ℕ :=
  if coverage_get cov i then
    coverage_set acc i (decide (sampled_depths i < cur_depths i))
  else acc

/-- Depth test of the covered samples of one pixel, from
    Rasterizer::depth_coverage, the loop unrolled in order. -/
def Rasterizer.depth_coverage (r : Rasterizer) (row col : ℕ) (cov : ℕ)
    (sampled_depths : Fin 4 → ℚ) : ℕ :=
  let cur_depths := (r.depth_buffers r.buf_idx).get_depth (row * r.width + col)
  dc_step cur_depths cov sampled_depths
    (dc_step cur_depths cov sampled_depths
      (dc_step cur_depths cov sampled_depths
        (dc_step cur_depths cov sampled_depths 0 0) 1) 2) 3

/-- One iteration of the loop in Rasterizer::write_pixel: write color and
    depth of sample i of the pixel when its bit is set. -/
def wp_step (r : Rasterizer) (row col : ℕ) (color : Color)
    (depths : Fin 4 → ℚ) (cov_mask : ℕ) (i : Fin 4) : Rasterizer :=
  if coverage_get cov_mask i then
    let idx := row * r.width + col
    { r with
      color_buffers := Function.update r.color_buffers r.buf_idx
        ((r.color_buffers r.buf_idx).set_pixel idx i color)
      depth_buffers := Function.update r.depth_buffers r.buf_idx
        ((r.depth_buffers r.buf_idx).set_depth idx i (depths i)) }
  else r

/-- Buffer write of one pixel, from Rasterizer::write_pixel, the loop
    unrolled in order. -/
def Rasterizer.write_pixel (r : Rasterizer) (row col : ℕ) (color : Color)
    (depths : Fin 4 → ℚ) (cov_mask : ℕ) : Rasterizer :=
  wp_step (wp_step (wp_step (wp_step r row col color depths cov_mask 0)
    row col color depths cov_mask 1) row col color depths cov_mask 2)
    row col color depths cov_mask 3

/-- Cull test, from Rasterizer::can_cull: every w nonpositive, or the
    doubled area below the degenerate epsilon. -/
def Rasterizer.can_cull (vertices : Fin 3 → Point4D) : Bool :=
  (decide ((vertices 0).w ≤ 0) && decide ((vertices 1).w ≤ 0) &&
      decide ((vertices 2).w ≤ 0)) ||
    decide (abs (triangle_2x_area (vertices 0).xy (vertices 1).xy
      (vertices 2).xy) < CULL_DEGENERATE_TRIANGLE_AREA_EPS)

/-- The body of the pixel loop in Rasterizer::rasterize: evaluate the edge
    functions at pixel (j, i), skip on empty coverage, depth test, shade and
    write.  The source mutates the edge function state inside the triangle
    between pixels; eval overwrites all four stored sample entries and all
    four mask bits, and never touches higher mask bits, so evaluating from
    the freshly built triangle is the same state. -/
def Rasterizer.rasterize_pixel (fs : FragmentShader) (r : Rasterizer)
    (tri : RasterizerTriangle) (i j : ℕ) : Rasterizer :=
  let ef := tri.edge_functions.eval j i
  if ef.any_coverage then
    let fragment := RasterizerTriangle.fragment { tri with edge_functions := ef }
    let cov_mask := r.depth_coverage i j ef.coverage_mask fragment.sampled_depths
    if cov_mask = 0 then r
    else
      let fc : FragCoords :=
        ⟨(j : ℚ) + 1/2, (i : ℚ) + 1/2, fragment.sampled_depths,
         ef.coverage_mask⟩
      let col := fs fc (fragment.interpolate j i cov_mask)
      r.write_pixel i j col fragment.sampled_depths cov_mask
  else r

/-- The body of the triangle loop in Rasterizer::rasterize: cull, divide,
    viewport transform, then walk the bounding box rows and columns. -/
def Rasterizer.rasterize_triangle (fs : FragmentShader) (r : Rasterizer)
    (t : Triangle) : Rasterizer :=
  if Rasterizer.can_cull (fin3 t.v0 t.v1 t.v2) then r
  else
    let ndc := Rasterizer.perspective_divide t
    let tri := Rasterizer.viewport_transform r.width r.height ndc
    let bb := pixel_bounding_box tri.edge_functions.points
    ((List.range (bb.max_y - bb.min_y)).map (· + bb.min_y)).foldl
      (fun acc i =>
        ((List.range (bb.max_x - bb.min_x)).map (· + bb.min_x)).foldl
          (fun acc2 j => Rasterizer.rasterize_pixel fs acc2 tri i j) acc)
      r

/-- The rasterizer entry point, from Rasterizer::rasterize: fold the
    triangle loop over the list. -/
def Rasterizer.rasterize (fs : FragmentShader) (r : Rasterizer)
    (ts : List Triangle) : Rasterizer :=
  ts.foldl (Rasterizer.rasterize_triangle fs) r

/-- Resolve and clear, from Rasterizer::resolve_and_clear.  The source
    declares a buf_idx parameter but the body indexes every buffer with
    self.buf_idx, so the parameter is ignored; the embedding keeps the unused
    parameter.  Every pixel of the current set is resolved into the resolve
    buffer and its color and depth samples are reset to the clear values;
    the resolve buffer is also returned. -/
def Rasterizer.resolve_and_clear (r : Rasterizer) (_buf_idx : ℕ) :
    Rasterizer × (ℕ → ℕ) :=
  let n := r.width * r.height
  let cb := r.color_buffers r.buf_idx
  let db := r.depth_buffers r.buf_idx
  let new_resolve : ℕ → ℕ := fun i =>
    if i < n then ColorBuffer.box_filter_color (cb.buffer i)
    else cb.resolve_buffer i
  let new_cbuf : ℕ → Fin 4 → ℕ := fun i k =>
    if i < n then CLEAR_COLOR else cb.buffer i k
  let new_dbuf : ℕ → Fin 4 → ℚ := fun i k =>
    if i < n then CLEAR_DEPTH else db.buffer i k
  ({ r with
      color_buffers := Function.update r.color_buffers r.buf_idx
        { cb with buffer := new_cbuf, resolve_buffer := new_resolve }
      depth_buffers := Function.update r.depth_buffers r.buf_idx
        { db with buffer := new_dbuf } },
   new_resolve)

/-- Buffer swap, from Rasterizer::swap_buffers: remember the previous index,
    toggle buf_idx, then call resolve_and_clear with the previous index --
    which resolve_and_clear ignores. -/
def Rasterizer.swap_buffers (r : Rasterizer) : Rasterizer × (ℕ → ℕ) :=
  let prev := r.buf_idx
  let r2 := { r with buf_idx := r.buf_idx + 1 }
  Rasterizer.resolve_and_clear r2 prev.val

/-- Affine combination of screen points, used to state that the viewport
    mapping is affine. -/
def point3_lerp (p0 p1 : Point3D) (alpha : ℚ) : Point3D :=
  ⟨(1 - alpha) * p0.x + alpha * p1.x,
   (1 - alpha) * p0.y + alpha * p1.y,
   (1 - alpha) * p0.z + alpha * p1.z⟩

/-- C8: the viewport vertex map sends NDC (-1, 1/2, -1/2) in a 400 by 500
    buffer to pixel (0, 125) with buffer depth 1/4; it commutes with affine
    combinations (so the map is affine); y is flipped so that NDC y = 1 is
    screen row 0 and NDC y = -1 is row H (origin upper left); NDC z = -1
    gives depth 0, z = 1 gives depth 1, and depth is strictly monotone
    in z. -/
theorem c8_viewport_transform (W H : ℕ) (v1 v2 : Point4D) (t z1 z2 : ℚ)
    (hz : z1 < z2) :
    viewport_new_vert 400 500 ⟨-1, 1/2, -1/2, 5⟩ = ⟨0, 125, 1/4⟩ ∧
    viewport_new_vert W H (point_lerp v1 v2 t) =
      point3_lerp (viewport_new_vert W H v1) (viewport_new_vert W H v2) t ∧
    (viewport_new_vert W H ⟨v1.x, 1, v1.z, v1.w⟩).y = 0 ∧
    (viewport_new_vert W H ⟨v1.x, -1, v1.z, v1.w⟩).y = H ∧
    (viewport_new_vert W H ⟨v1.x, v1.y, -1, v1.w⟩).z = 0 ∧
    (viewport_new_vert W H ⟨v1.x, v1.y, 1, v1.w⟩).z = 1 ∧
    (viewport_new_vert W H ⟨v1.x, v1.y, z1, v1.w⟩).z <
      (viewport_new_vert W H ⟨v1.x, v1.y, z2, v1.w⟩).z := by
  refine ⟨by norm_num [viewport_new_vert], ?_, ?_, ?_, ?_, ?_, ?_⟩
  · simp only [viewport_new_vert, point_lerp, point3_lerp, Point3D.mk.injEq]
    refine ⟨by ring, by ring, by ring⟩
  · simp [viewport_new_vert]
  · simp [viewport_new_vert]
  · simp [viewport_new_vert]
  · norm_num [viewport_new_vert]
  · simp only [viewport_new_vert]
    linarith

/-- C8 witness: the viewport facts instantiated at a 400 by 500 buffer with
    the depth monotonicity hypothesis discharged at z1 = 0, z2 = 1. -/
theorem c8_viewport_transform_witness :
    ((0 : ℚ) < 1) ∧
    ((viewport_new_vert 400 500 ⟨0, 0, 0, 1⟩).z <
      (viewport_new_vert 400 500 ⟨0, 0, 1, 1⟩).z) := by
  have h := c8_viewport_transform 400 500 ⟨0, 0, 0, 1⟩ ⟨0, 0, 0, 1⟩ 0 0 1
    (by norm_num)
  exact ⟨by norm_num, h.2.2.2.2.2.2⟩

/-- C10: a triangle all of whose vertices have nonpositive clip-space w is
    culled by can_cull, and the rasterize triangle loop body returns the
    state unchanged before the perspective divide: no division by a
    nonpositive w happens for it and no buffer changes. -/
theorem c10_w_nonpositive_culled (fs : FragmentShader) (r : Rasterizer)
    (t : Triangle) (h0 : t.v0.w ≤ 0) (h1 : t.v1.w ≤ 0) (h2 : t.v2.w ≤ 0) :
    Rasterizer.can_cull (fin3 t.v0 t.v1 t.v2) = true ∧
    Rasterizer.rasterize_triangle fs r t = r := by
  have hc : Rasterizer.can_cull (fin3 t.v0 t.v1 t.v2) = true := by
    simp [Rasterizer.can_cull, fin3, h0, h1, h2]
  refine ⟨hc, ?_⟩
  unfold Rasterizer.rasterize_triangle
  rw [if_pos hc]

/-- C10 witness: a triangle behind the camera (every w equal to -1) leaves a
    fresh 4 by 4 rasterizer unchanged. -/
theorem c10_w_nonpositive_culled_witness :
    ((-1 : ℚ) ≤ 0) ∧
    Rasterizer.rasterize_triangle (fun _ _ => ⟨1, 0, 0, 1⟩)
      (Rasterizer.new 4 4)
      ⟨⟨0, 0, 0, -1⟩, ⟨1, 0, 0, -1⟩, ⟨0, 1, 0, -1⟩,
        red_attr, red_attr, red_attr⟩ =
      Rasterizer.new 4 4 := by
  refine ⟨by norm_num, ?_⟩
  exact (c10_w_nonpositive_culled _ _ _ (by norm_num) (by norm_num)
    (by norm_num)).2

/-- Helper: clamping a value already in the unit interval is the
    identity. -/
theorem clamp_bary_eq_self {x : ℚ} (h0 : 0 ≤ x) (h1 : x ≤ 1) :
    clamp_bary x = x := by
  unfold clamp_bary
  rw [max_eq_left h0, min_eq_left h1]

/-- Helper: a value in the unit interval satisfies the clamp_bary debug
    assertion. -/
theorem clamp_bary_assert_of_unit {x : ℚ} (h0 : 0 ≤ x) (h1 : x ≤ 1) :
    clamp_bary_assert_ok x :=
  ⟨by linarith, by linarith⟩

/-- Helper: the three edge functions of a triangle built by
    RasterizerTriangle::new sum to the doubled signed area, at every sample
    point. -/
theorem eval_single_sum (vs : Fin 3 → Point3D) (ds : Fin 3 → ℚ)
    (attrs : Fin 3 → VertexAttribute) (x y : ℚ) :
    (RasterizerTriangle.new vs ds attrs).edge_functions.eval_single x y 0 +
      (RasterizerTriangle.new vs ds attrs).edge_functions.eval_single x y 1 +
      (RasterizerTriangle.new vs ds attrs).edge_functions.eval_single x y 2 =
      triangle_2x_area (vs 0).xy (vs 1).xy (vs 2).xy := by
  simp only [RasterizerTriangle.new, EdgeFunctions.eval_single, Vec2.dot,
    Point2D.sub, Point3D.xy, triangle_2x_area, Vec2.cross, fin3]
  ring

/-- Helper: bounds, assertion facts and partition of unity for the two
    families of interpolation weights, in terms of three positive edge
    values summing to the doubled area and three positive camera depths. -/
theorem bary_parts (A e0 e1 e2 d0 d1 d2 : ℚ) (hA : e0 + e1 + e2 = A)
    (he0 : 0 < e0) (he1 : 0 < e1) (he2 : 0 < e2)
    (hd0 : 0 < d0) (hd1 : 0 < d1) (hd2 : 0 < d2) :
    clamp_bary_assert_ok (e1 * (1 / A)) ∧
    clamp_bary_assert_ok (e2 * (1 / A)) ∧
    clamp_bary_assert_ok
      (1 - clamp_bary (e1 * (1 / A)) - clamp_bary (e2 * (1 / A))) ∧
    (0 ≤ clamp_bary (e1 * (1 / A)) ∧ clamp_bary (e1 * (1 / A)) ≤ 1) ∧
    (0 ≤ clamp_bary (e2 * (1 / A)) ∧ clamp_bary (e2 * (1 / A)) ≤ 1) ∧
    (0 ≤ clamp_bary
        (1 - clamp_bary (e1 * (1 / A)) - clamp_bary (e2 * (1 / A))) ∧
      clamp_bary
        (1 - clamp_bary (e1 * (1 / A)) - clamp_bary (e2 * (1 / A))) ≤ 1) ∧
    clamp_bary (e1 * (1 / A)) + clamp_bary (e2 * (1 / A)) +
      clamp_bary
        (1 - clamp_bary (e1 * (1 / A)) - clamp_bary (e2 * (1 / A))) = 1 ∧
    clamp_bary_assert_ok ((e1 / d0) / (e1 / d0 + e2 / d1 + e0 / d2)) ∧
    clamp_bary_assert_ok ((e2 / d1) / (e1 / d0 + e2 / d1 + e0 / d2)) ∧
    clamp_bary_assert_ok
      (1 - clamp_bary ((e1 / d0) / (e1 / d0 + e2 / d1 + e0 / d2)) -
        clamp_bary ((e2 / d1) / (e1 / d0 + e2 / d1 + e0 / d2))) ∧
    (0 ≤ clamp_bary ((e1 / d0) / (e1 / d0 + e2 / d1 + e0 / d2)) ∧
      clamp_bary ((e1 / d0) / (e1 / d0 + e2 / d1 + e0 / d2)) ≤ 1) ∧
    (0 ≤ clamp_bary ((e2 / d1) / (e1 / d0 + e2 / d1 + e0 / d2)) ∧
      clamp_bary ((e2 / d1) / (e1 / d0 + e2 / d1 + e0 / d2)) ≤ 1) ∧
    (0 ≤ clamp_bary
        (1 - clamp_bary ((e1 / d0) / (e1 / d0 + e2 / d1 + e0 / d2)) -
          clamp_bary ((e2 / d1) / (e1 / d0 + e2 / d1 + e0 / d2))) ∧
      clamp_bary
        (1 - clamp_bary ((e1 / d0) / (e1 / d0 + e2 / d1 + e0 / d2)) -
          clamp_bary ((e2 / d1) / (e1 / d0 + e2 / d1 + e0 / d2))) ≤ 1) ∧
    clamp_bary ((e1 / d0) / (e1 / d0 + e2 / d1 + e0 / d2)) +
      clamp_bary ((e2 / d1) / (e1 / d0 + e2 / d1 + e0 / d2)) +
      clamp_bary
        (1 - clamp_bary ((e1 / d0) / (e1 / d0 + e2 / d1 + e0 / d2)) -
          clamp_bary ((e2 / d1) / (e1 / d0 + e2 / d1 + e0 / d2))) = 1 := by
  have hApos : 0 < A := by linarith
  have hb0 : 0 < e1 / A := div_pos he1 hApos
  have hb0' : e1 / A < 1 := (div_lt_one hApos).mpr (by linarith)
  have hb1 : 0 < e2 / A := div_pos he2 hApos
  have hb1' : e2 / A < 1 := (div_lt_one hApos).mpr (by linarith)
  have hm0 : e1 * (1 / A) = e1 / A := mul_one_div e1 A
  have hm1 : e2 * (1 / A) = e2 / A := mul_one_div e2 A
  have hc0 : clamp_bary (e1 * (1 / A)) = e1 / A := by
    rw [hm0]; exact clamp_bary_eq_self hb0.le hb0'.le
  have hc1 : clamp_bary (e2 * (1 / A)) = e2 / A := by
    rw [hm1]; exact clamp_bary_eq_self hb1.le hb1'.le
  have hpre2 : 1 - e1 / A - e2 / A = e0 / A := by
    field_simp
    linarith
  have hb2 : 0 < e0 / A := div_pos he0 hApos
  have hb2' : e0 / A < 1 := (div_lt_one hApos).mpr (by linarith)
  have hc2 : clamp_bary (1 - clamp_bary (e1 * (1 / A)) -
      clamp_bary (e2 * (1 / A))) = e0 / A := by
    rw [hc0, hc1, hpre2]; exact clamp_bary_eq_self hb2.le hb2'.le
  have hsum3 : e1 / A + e2 / A + e0 / A = 1 := by
    field_simp
    linarith
  have hfu : 0 < e1 / d0 := div_pos he1 hd0
  have hfv : 0 < e2 / d1 := div_pos he2 hd1
  have hfw : 0 < e0 / d2 := div_pos he0 hd2
  have hs : 0 < e1 / d0 + e2 / d1 + e0 / d2 := by linarith
  have hU : 0 < (e1 / d0) / (e1 / d0 + e2 / d1 + e0 / d2) := div_pos hfu hs
  have hU' : (e1 / d0) / (e1 / d0 + e2 / d1 + e0 / d2) < 1 :=
    (div_lt_one hs).mpr (by linarith)
  have hV : 0 < (e2 / d1) / (e1 / d0 + e2 / d1 + e0 / d2) := div_pos hfv hs
  have hV' : (e2 / d1) / (e1 / d0 + e2 / d1 + e0 / d2) < 1 :=
    (div_lt_one hs).mpr (by linarith)
  have hcU : clamp_bary ((e1 / d0) / (e1 / d0 + e2 / d1 + e0 / d2)) =
      (e1 / d0) / (e1 / d0 + e2 / d1 + e0 / d2) :=
    clamp_bary_eq_self hU.le hU'.le
  have hcV : clamp_bary ((e2 / d1) / (e1 / d0 + e2 / d1 + e0 / d2)) =
      (e2 / d1) / (e1 / d0 + e2 / d1 + e0 / d2) :=
    clamp_bary_eq_self hV.le hV'.le
  have hWpre : 1 - (e1 / d0) / (e1 / d0 + e2 / d1 + e0 / d2) -
      (e2 / d1) / (e1 / d0 + e2 / d1 + e0 / d2) =
      (e0 / d2) / (e1 / d0 + e2 / d1 + e0 / d2) := by
    field_simp
    ring
  have hW : 0 < (e0 / d2) / (e1 / d0 + e2 / d1 + e0 / d2) := div_pos hfw hs
  have hW' : (e0 / d2) / (e1 / d0 + e2 / d1 + e0 / d2) < 1 :=
    (div_lt_one hs).mpr (by linarith)
  have hcW : clamp_bary
      (1 - clamp_bary ((e1 / d0) / (e1 / d0 + e2 / d1 + e0 / d2)) -
        clamp_bary ((e2 / d1) / (e1 / d0 + e2 / d1 + e0 / d2))) =
      (e0 / d2) / (e1 / d0 + e2 / d1 + e0 / d2) := by
    rw [hcU, hcV, hWpre]; exact clamp_bary_eq_self hW.le hW'.le
  have hsumUVW : (e1 / d0) / (e1 / d0 + e2 / d1 + e0 / d2) +
      (e2 / d1) / (e1 / d0 + e2 / d1 + e0 / d2) +
      (e0 / d2) / (e1 / d0 + e2 / d1 + e0 / d2) = 1 := by
    field_simp
    ring
  refine ⟨?_, ?_, ?_, ?_, ?_, ?_, ?_, ?_, ?_, ?_, ?_, ?_, ?_, ?_⟩
  · rw [hm0]; exact clamp_bary_assert_of_unit hb0.le hb0'.le
  · rw [hm1]; exact clamp_bary_assert_of_unit hb1.le hb1'.le
  · rw [hc0, hc1, hpre2]; exact clamp_bary_assert_of_unit hb2.le hb2'.le
  · rw [hc0]; exact ⟨hb0.le, hb0'.le⟩
  · rw [hc1]; exact ⟨hb1.le, hb1'.le⟩
  · rw [hc2]; exact ⟨hb2.le, hb2'.le⟩
  · rw [hc2, hc0, hc1]; linarith
  · exact clamp_bary_assert_of_unit hU.le hU'.le
  · exact clamp_bary_assert_of_unit hV.le hV'.le
  · rw [hcU, hcV, hWpre]; exact clamp_bary_assert_of_unit hW.le hW'.le
  · rw [hcU]; exact ⟨hU.le, hU'.le⟩
  · rw [hcV]; exact ⟨hV.le, hV'.le⟩
  · rw [hcW]; exact ⟨hW.le, hW'.le⟩
  · rw [hcW, hcU, hcV]; linarith

/-- C9 (amended): for a screen triangle built by RasterizerTriangle::new
    with strictly positive camera-space depths, at every sample point
    strictly inside it (all three edge values positive), both weight
    families of the code are well behaved: the linear barycentrics of the
    depth interpolation in RasterizerTriangle::fragment and the perspective
    corrected barycentrics of Fragment::interpolate all lie in [0, 1], every
    value fed to clamp_bary satisfies its debug assertion, and each family
    sums to exactly 1. -/
theorem c9_partition_of_unity (vs : Fin 3 → Point3D) (ds : Fin 3 → ℚ)
    (attrs : Fin 3 → VertexAttribute) (x y : ℚ)
    (hd : ∀ k : Fin 3, 0 < ds k)
    (he : ∀ k : Fin 3,
      0 < (RasterizerTriangle.new vs ds attrs).edge_functions.eval_single
        x y k) :
    let tri := RasterizerTriangle.new vs ds attrs
    let efs := tri.edge_functions.eval_single x y
    clamp_bary_assert_ok (efs 1 * tri.inv_2x_area) ∧
    clamp_bary_assert_ok (efs 2 * tri.inv_2x_area) ∧
    clamp_bary_assert_ok (1 - clamp_bary (efs 1 * tri.inv_2x_area) -
      clamp_bary (efs 2 * tri.inv_2x_area)) ∧
    (0 ≤ clamp_bary (efs 1 * tri.inv_2x_area) ∧
      clamp_bary (efs 1 * tri.inv_2x_area) ≤ 1) ∧
    (0 ≤ clamp_bary (efs 2 * tri.inv_2x_area) ∧
      clamp_bary (efs 2 * tri.inv_2x_area) ≤ 1) ∧
    (0 ≤ clamp_bary (1 - clamp_bary (efs 1 * tri.inv_2x_area) -
        clamp_bary (efs 2 * tri.inv_2x_area)) ∧
      clamp_bary (1 - clamp_bary (efs 1 * tri.inv_2x_area) -
        clamp_bary (efs 2 * tri.inv_2x_area)) ≤ 1) ∧
    clamp_bary (efs 1 * tri.inv_2x_area) +
      clamp_bary (efs 2 * tri.inv_2x_area) +
      clamp_bary (1 - clamp_bary (efs 1 * tri.inv_2x_area) -
        clamp_bary (efs 2 * tri.inv_2x_area)) = 1 ∧
    clamp_bary_assert_ok ((efs 1 / ds 0) /
      (efs 1 / ds 0 + efs 2 / ds 1 + efs 0 / ds 2)) ∧
    clamp_bary_assert_ok ((efs 2 / ds 1) /
      (efs 1 / ds 0 + efs 2 / ds 1 + efs 0 / ds 2)) ∧
    clamp_bary_assert_ok
      (1 - clamp_bary ((efs 1 / ds 0) /
          (efs 1 / ds 0 + efs 2 / ds 1 + efs 0 / ds 2)) -
        clamp_bary ((efs 2 / ds 1) /
          (efs 1 / ds 0 + efs 2 / ds 1 + efs 0 / ds 2))) ∧
    (0 ≤ clamp_bary ((efs 1 / ds 0) /
        (efs 1 / ds 0 + efs 2 / ds 1 + efs 0 / ds 2)) ∧
      clamp_bary ((efs 1 / ds 0) /
        (efs 1 / ds 0 + efs 2 / ds 1 + efs 0 / ds 2)) ≤ 1) ∧
    (0 ≤ clamp_bary ((efs 2 / ds 1) /
        (efs 1 / ds 0 + efs 2 / ds 1 + efs 0 / ds 2)) ∧
      clamp_bary ((efs 2 / ds 1) /
        (efs 1 / ds 0 + efs 2 / ds 1 + efs 0 / ds 2)) ≤ 1) ∧
    (0 ≤ clamp_bary
        (1 - clamp_bary ((efs 1 / ds 0) /
            (efs 1 / ds 0 + efs 2 / ds 1 + efs 0 / ds 2)) -
          clamp_bary ((efs 2 / ds 1) /
            (efs 1 / ds 0 + efs 2 / ds 1 + efs 0 / ds 2))) ∧
      clamp_bary
        (1 - clamp_bary ((efs 1 / ds 0) /
            (efs 1 / ds 0 + efs 2 / ds 1 + efs 0 / ds 2)) -
          clamp_bary ((efs 2 / ds 1) /
            (efs 1 / ds 0 + efs 2 / ds 1 + efs 0 / ds 2))) ≤ 1) ∧
    clamp_bary ((efs 1 / ds 0) /
        (efs 1 / ds 0 + efs 2 / ds 1 + efs 0 / ds 2)) +
      clamp_bary ((efs 2 / ds 1) /
        (efs 1 / ds 0 + efs 2 / ds 1 + efs 0 / ds 2)) +
      clamp_bary
        (1 - clamp_bary ((efs 1 / ds 0) /
            (efs 1 / ds 0 + efs 2 / ds 1 + efs 0 / ds 2)) -
          clamp_bary ((efs 2 / ds 1) /
            (efs 1 / ds 0 + efs 2 / ds 1 + efs 0 / ds 2))) = 1 := by
  intro tri efs
  exact bary_parts (triangle_2x_area (vs 0).xy (vs 1).xy (vs 2).xy)
    (efs 0) (efs 1) (efs 2) (ds 0) (ds 1) (ds 2)
    (eval_single_sum vs ds attrs x y) (he 0) (he 1) (he 2)
    (hd 0) (hd 1) (hd 2)

/-- The witness triangle for C9: the screen triangle of the rasterizer unit
    tests with camera depths 5, 6, 7, sampled at the pixel centre
    (200.5, 200.5). -/
def c9_wtri : RasterizerTriangle :=
  RasterizerTriangle.new
    (fin3 ⟨100, 300, 1/2⟩ ⟨200, 150, 1/2⟩ ⟨300, 300, 1/2⟩)
    (fin3 5 6 7) (fin3 red_attr red_attr red_attr)

/-- The edge values of the witness triangle at (200.5, 200.5). -/
def c9_wefs : Fin 3 → ℚ :=
  c9_wtri.edge_functions.eval_single (401/2) (401/2)

/-- C9 witness: the amended statement instantiated on the witness triangle;
    the perspective corrected weights sum to exactly 1 there. -/
theorem c9_partition_of_unity_witness :
    (∀ k : Fin 3, (0 : ℚ) < fin3 5 6 7 k) ∧
    (∀ k : Fin 3, 0 < c9_wefs k) ∧
    clamp_bary ((c9_wefs 1 / fin3 (5:ℚ) 6 7 0) /
        (c9_wefs 1 / fin3 (5:ℚ) 6 7 0 + c9_wefs 2 / fin3 (5:ℚ) 6 7 1 +
          c9_wefs 0 / fin3 (5:ℚ) 6 7 2)) +
      clamp_bary ((c9_wefs 2 / fin3 (5:ℚ) 6 7 1) /
        (c9_wefs 1 / fin3 (5:ℚ) 6 7 0 + c9_wefs 2 / fin3 (5:ℚ) 6 7 1 +
          c9_wefs 0 / fin3 (5:ℚ) 6 7 2)) +
      clamp_bary
        (1 - clamp_bary ((c9_wefs 1 / fin3 (5:ℚ) 6 7 0) /
            (c9_wefs 1 / fin3 (5:ℚ) 6 7 0 + c9_wefs 2 / fin3 (5:ℚ) 6 7 1 +
              c9_wefs 0 / fin3 (5:ℚ) 6 7 2)) -
          clamp_bary ((c9_wefs 2 / fin3 (5:ℚ) 6 7 1) /
            (c9_wefs 1 / fin3 (5:ℚ) 6 7 0 + c9_wefs 2 / fin3 (5:ℚ) 6 7 1 +
              c9_wefs 0 / fin3 (5:ℚ) 6 7 2))) = 1 := by
  have hd : ∀ k : Fin 3, (0 : ℚ) < fin3 5 6 7 k := by
    intro k
    fin_cases k <;> norm_num [fin3]
  have he : ∀ k : Fin 3, 0 < c9_wefs k := by
    intro k
    fin_cases k <;>
      norm_num [c9_wefs, c9_wtri, RasterizerTriangle.new,
        EdgeFunctions.eval_single, Vec2.dot, Point2D.sub, Point3D.xy, fin3]
  exact ⟨hd, he,
    (c9_partition_of_unity
      (fin3 ⟨100, 300, 1/2⟩ ⟨200, 150, 1/2⟩ ⟨300, 300, 1/2⟩)
      (fin3 5 6 7) (fin3 red_attr red_attr red_attr) (401/2) (401/2)
      hd he).2.2.2.2.2.2.2.2.2.2.2.2.2⟩

/-- The counterexample triangle for C9 as stated: same screen geometry, but
    the camera-space depth of the third vertex is negative. -/
def c9_ctri : RasterizerTriangle :=
  RasterizerTriangle.new
    (fin3 ⟨100, 300, 1/2⟩ ⟨200, 150, 1/2⟩ ⟨300, 300, 1/2⟩)
    (fin3 1 1 (-1)) (fin3 red_attr red_attr red_attr)

/-- The edge values of the counterexample triangle at (200.5, 200.5). -/
def c9_cefs : Fin 3 → ℚ :=
  c9_ctri.edge_functions.eval_single (401/2) (401/2)

/-- C9 counterexample: the claim as stated quantifies over every
    non-degenerate screen triangle and interior sample but the stored camera
    depths are unconstrained; with depths (1, 1, -1) the triangle is
    non-degenerate and the sample is strictly inside, yet the perspective
    weight of Fragment::interpolate fed to clamp_bary is 19900 / 19750,
    outside the asserted band, so the debug assertion fires. -/
theorem c9_negative_depth_counterexample :
    (∀ k : Fin 3, 0 < c9_cefs k) ∧
    0 < triangle_2x_area (⟨100, 300⟩ : Point2D) ⟨200, 150⟩ ⟨300, 300⟩ ∧
    ¬ clamp_bary_assert_ok
      ((c9_cefs 2 / c9_ctri.depths_camera_space 1) /
        (c9_cefs 1 / c9_ctri.depths_camera_space 0 +
          c9_cefs 2 / c9_ctri.depths_camera_space 1 +
          c9_cefs 0 / c9_ctri.depths_camera_space 2)) := by
  refine ⟨?_, by norm_num [triangle_2x_area, Vec2.cross, Point2D.sub], ?_⟩
  · intro k
    fin_cases k <;>
      norm_num [c9_cefs, c9_ctri, RasterizerTriangle.new,
        EdgeFunctions.eval_single, Vec2.dot, Point2D.sub, Point3D.xy, fin3]
  · norm_num [clamp_bary_assert_ok, c9_cefs, c9_ctri, RasterizerTriangle.new,
      EdgeFunctions.eval_single, Vec2.dot, Point2D.sub, Point3D.xy, fin3]

/-- Helper: the empty mask has no bit set. -/
theorem coverage_get_zero (k : Fin 4) : coverage_get 0 k = false := by
  simp [coverage_get]

/-- Helper: reading the color buffer after set_pixel. -/
theorem set_pixel_buffer (cb : ColorBuffer) (idx : ℕ) (mi : Fin 4) (c : Color)
    (idx2 : ℕ) (k : Fin 4) :
    (cb.set_pixel idx mi c).buffer idx2 k =
      if idx2 = idx ∧ k = mi then c.to_argb else cb.buffer idx2 k := by
  unfold ColorBuffer.set_pixel
  by_cases h1 : idx2 = idx
  · subst h1
    by_cases h2 : k = mi
    · subst h2
      simp [Function.update_apply]
    · simp [Function.update_apply, h2]
  · simp [Function.update_apply, h1]

/-- Helper: reading the depth buffer after set_depth. -/
theorem set_depth_buffer (db : DepthBuffer) (idx : ℕ) (mi : Fin 4) (d : ℚ)
    (idx2 : ℕ) (k : Fin 4) :
    (db.set_depth idx mi d).buffer idx2 k =
      if idx2 = idx ∧ k = mi then d else db.buffer idx2 k := by
  unfold DepthBuffer.set_depth
  by_cases h1 : idx2 = idx
  · subst h1
    by_cases h2 : k = mi
    · subst h2
      simp [Function.update_apply]
    · simp [Function.update_apply, h2]
  · simp [Function.update_apply, h1]

/-- Helper: the depth test mask bit of each sample, from the unrolled loop
    of Rasterizer::depth_coverage: the bit is the coverage bit of the
    triangle and the strict depth comparison. -/
theorem depth_coverage_get (r : Rasterizer) (row col : ℕ) (cov : ℕ)
    (sd : Fin 4 → ℚ) (k : Fin 4) :
    coverage_get (r.depth_coverage row col cov sd) k =
      (coverage_get cov k &&
        decide (sd k <
          (r.depth_buffers r.buf_idx).get_depth (row * r.width + col) k)) := by
  unfold Rasterizer.depth_coverage dc_step
  fin_cases k <;>
    by_cases h0 : coverage_get cov 0 <;> by_cases h1 : coverage_get cov 1 <;>
      by_cases h2 : coverage_get cov 2 <;> by_cases h3 : coverage_get cov 3 <;>
        simp [h0, h1, h2, h3, coverage_get_set, coverage_get_zero]

/-- Helper: wp_step keeps the buffer index. -/
theorem wp_step_buf_idx (r : Rasterizer) (row col : ℕ) (c : Color)
    (d : Fin 4 → ℚ) (cm : ℕ) (i : Fin 4) :
    (wp_step r row col c d cm i).buf_idx = r.buf_idx := by
  unfold wp_step
  split <;> rfl

/-- Helper: wp_step keeps the width. -/
theorem wp_step_width (r : Rasterizer) (row col : ℕ) (c : Color)
    (d : Fin 4 → ℚ) (cm : ℕ) (i : Fin 4) :
    (wp_step r row col c d cm i).width = r.width := by
  unfold wp_step
  split <;> rfl

/-- Helper: wp_step keeps the height. -/
theorem wp_step_height (r : Rasterizer) (row col : ℕ) (c : Color)
    (d : Fin 4 → ℚ) (cm : ℕ) (i : Fin 4) :
    (wp_step r row col c d cm i).height = r.height := by
  unfold wp_step
  split <;> rfl

/-- Helper: reading a color sample after one write_pixel iteration. -/
theorem wp_step_color (r : Rasterizer) (row col : ℕ) (c : Color)
    (d : Fin 4 → ℚ) (cm : ℕ) (i : Fin 4) (b : Fin 2) (idx2 : ℕ) (k : Fin 4) :
    ((wp_step r row col c d cm i).color_buffers b).buffer idx2 k =
      if b = r.buf_idx ∧ idx2 = row * r.width + col ∧ k = i ∧
          coverage_get cm i = true then c.to_argb
      else (r.color_buffers b).buffer idx2 k := by
  unfold wp_step
  by_cases hcm : coverage_get cm i
  · by_cases hb : b = r.buf_idx
    · by_cases hidx : idx2 = row * r.width + col
      · by_cases hk : k = i
        · simp [hcm, hb, hidx, hk, Function.update_apply, set_pixel_buffer]
        · simp [hcm, hb, hidx, hk, Function.update_apply, set_pixel_buffer]
      · simp [hcm, hb, hidx, Function.update_apply, set_pixel_buffer]
    · simp [hcm, hb, Function.update_apply]
  · simp [hcm]

/-- Helper: reading a depth sample after one write_pixel iteration. -/
theorem wp_step_depth (r : Rasterizer) (row col : ℕ) (c : Color)
    (d : Fin 4 → ℚ) (cm : ℕ) (i : Fin 4) (b : Fin 2) (idx2 : ℕ) (k : Fin 4) :
    ((wp_step r row col c d cm i).depth_buffers b).buffer idx2 k =
      if b = r.buf_idx ∧ idx2 = row * r.width + col ∧ k = i ∧
          coverage_get cm i = true then d i
      else (r.depth_buffers b).buffer idx2 k := by
  unfold wp_step
  by_cases hcm : coverage_get cm i
  · by_cases hb : b = r.buf_idx
    · by_cases hidx : idx2 = row * r.width + col
      · by_cases hk : k = i
        · simp [hcm, hb, hidx, hk, Function.update_apply, set_depth_buffer]
        · simp [hcm, hb, hidx, hk, Function.update_apply, set_depth_buffer]
      · simp [hcm, hb, hidx, Function.update_apply, set_depth_buffer]
    · simp [hcm, hb, Function.update_apply]
  · simp [hcm]

/-- Helper: wp_step never touches the resolve buffer. -/
theorem wp_step_resolve (r : Rasterizer) (row col : ℕ) (c : Color)
    (d : Fin 4 → ℚ) (cm : ℕ) (i : Fin 4) (b : Fin 2) :
    ((wp_step r row col c d cm i).color_buffers b).resolve_buffer =
      (r.color_buffers b).resolve_buffer := by
  unfold wp_step
  split
  · by_cases hb : b = r.buf_idx <;>
      simp [hb, Function.update_apply, ColorBuffer.set_pixel]
  · rfl

/-- Helper: wp_step never touches the color clear buffer. -/
theorem wp_step_color_clear (r : Rasterizer) (row col : ℕ) (c : Color)
    (d : Fin 4 → ℚ) (cm : ℕ) (i : Fin 4) (b : Fin 2) :
    ((wp_step r row col c d cm i).color_buffers b).clear_buffer =
      (r.color_buffers b).clear_buffer := by
  unfold wp_step
  split
  · by_cases hb : b = r.buf_idx <;>
      simp [hb, Function.update_apply, ColorBuffer.set_pixel]
  · rfl

/-- Helper: wp_step never touches the depth clear buffer. -/
theorem wp_step_depth_clear (r : Rasterizer) (row col : ℕ) (c : Color)
    (d : Fin 4 → ℚ) (cm : ℕ) (i : Fin 4) (b : Fin 2) :
    ((wp_step r row col c d cm i).depth_buffers b).clear_buffer =
      (r.depth_buffers b).clear_buffer := by
  unfold wp_step
  split
  · by_cases hb : b = r.buf_idx <;>
      simp [hb, Function.update_apply, DepthBuffer.set_depth]
  · rfl

/-- Helper: reading a color sample after Rasterizer::write_pixel: sample k
    of the written pixel holds the color iff bit k of the mask is set. -/
theorem write_pixel_color (r : Rasterizer) (row col : ℕ) (c : Color)
    (d : Fin 4 → ℚ) (cm : ℕ) (b : Fin 2) (idx2 : ℕ) (k : Fin 4) :
    ((r.write_pixel row col c d cm).color_buffers b).buffer idx2 k =
      if b = r.buf_idx ∧ idx2 = row * r.width + col ∧
          coverage_get cm k = true then c.to_argb
      else (r.color_buffers b).buffer idx2 k := by
  unfold Rasterizer.write_pixel
  fin_cases k <;>
    simp [wp_step_color, wp_step_buf_idx, wp_step_width]

/-- Helper: reading a depth sample after Rasterizer::write_pixel. -/
theorem write_pixel_depth (r : Rasterizer) (row col : ℕ) (c : Color)
    (d : Fin 4 → ℚ) (cm : ℕ) (b : Fin 2) (idx2 : ℕ) (k : Fin 4) :
    ((r.write_pixel row col c d cm).depth_buffers b).buffer idx2 k =
      if b = r.buf_idx ∧ idx2 = row * r.width + col ∧
          coverage_get cm k = true then d k
      else (r.depth_buffers b).buffer idx2 k := by
  unfold Rasterizer.write_pixel
  fin_cases k <;>
    simp [wp_step_depth, wp_step_buf_idx, wp_step_width]

/-- Helper: write_pixel keeps index and dimensions. -/
theorem write_pixel_meta (r : Rasterizer) (row col : ℕ) (c : Color)
    (d : Fin 4 → ℚ) (cm : ℕ) :
    (r.write_pixel row col c d cm).buf_idx = r.buf_idx ∧
    (r.write_pixel row col c d cm).width = r.width ∧
    (r.write_pixel row col c d cm).height = r.height := by
  unfold Rasterizer.write_pixel
  refine ⟨?_, ?_, ?_⟩ <;>
    simp [wp_step_buf_idx, wp_step_width, wp_step_height]

/-- Helper: write_pixel touches neither the resolve buffer nor the clear
    buffers. -/
theorem write_pixel_untouched (r : Rasterizer) (row col : ℕ) (c : Color)
    (d : Fin 4 → ℚ) (cm : ℕ) (b : Fin 2) :
    ((r.write_pixel row col c d cm).color_buffers b).resolve_buffer =
        (r.color_buffers b).resolve_buffer ∧
    ((r.write_pixel row col c d cm).color_buffers b).clear_buffer =
        (r.color_buffers b).clear_buffer ∧
    ((r.write_pixel row col c d cm).depth_buffers b).clear_buffer =
        (r.depth_buffers b).clear_buffer := by
  unfold Rasterizer.write_pixel
  refine ⟨?_, ?_, ?_⟩ <;>
    simp [wp_step_resolve, wp_step_color_clear, wp_step_depth_clear]

/-- C6: in the pixel loop body of Rasterizer::rasterize, sample k of pixel
    (row i, column j) of the current buffer set gets the new depth and the
    shaded color iff the coverage bit of the triangle is set for k and the
    interpolated sample depth is strictly below the stored one; every other
    sample slot, every other pixel, the other buffer set, the resolve and
    clear buffers, the buffer index and the dimensions are unchanged.  In
    particular an empty coverage mask changes nothing. -/
theorem c6_per_sample_write (fs : FragmentShader) (r : Rasterizer)
    (tri : RasterizerTriangle) (i j : ℕ) :
    let ef := tri.edge_functions.eval j i
    let frag := RasterizerTriangle.fragment { tri with edge_functions := ef }
    let covm := r.depth_coverage i j ef.coverage_mask frag.sampled_depths
    let col := fs ⟨(j : ℚ) + 1/2, (i : ℚ) + 1/2, frag.sampled_depths,
      ef.coverage_mask⟩ (frag.interpolate j i covm)
    let r2 := Rasterizer.rasterize_pixel fs r tri i j
    (∀ (b : Fin 2) (idx2 : ℕ) (k : Fin 4),
      (r2.depth_buffers b).buffer idx2 k =
        if b = r.buf_idx ∧ idx2 = i * r.width + j ∧
            coverage_get ef.coverage_mask k = true ∧
            frag.sampled_depths k <
              (r.depth_buffers r.buf_idx).buffer (i * r.width + j) k
        then frag.sampled_depths k
        else (r.depth_buffers b).buffer idx2 k) ∧
    (∀ (b : Fin 2) (idx2 : ℕ) (k : Fin 4),
      (r2.color_buffers b).buffer idx2 k =
        if b = r.buf_idx ∧ idx2 = i * r.width + j ∧
            coverage_get ef.coverage_mask k = true ∧
            frag.sampled_depths k <
              (r.depth_buffers r.buf_idx).buffer (i * r.width + j) k
        then col.to_argb
        else (r.color_buffers b).buffer idx2 k) ∧
    r2.buf_idx = r.buf_idx ∧ r2.width = r.width ∧ r2.height = r.height ∧
    (∀ b : Fin 2,
      (r2.color_buffers b).resolve_buffer =
          (r.color_buffers b).resolve_buffer ∧
      (r2.color_buffers b).clear_buffer = (r.color_buffers b).clear_buffer ∧
      (r2.depth_buffers b).clear_buffer = (r.depth_buffers b).clear_buffer) := by
  intro ef frag covm col r2
  have hkey : ∀ k : Fin 4, coverage_get covm k =
      (coverage_get ef.coverage_mask k &&
        decide (frag.sampled_depths k <
          (r.depth_buffers r.buf_idx).buffer (i * r.width + j) k)) :=
    fun k => depth_coverage_get r i j ef.coverage_mask frag.sampled_depths k
  have hr2 : r2 = if ef.any_coverage then
      (if covm = 0 then r else r.write_pixel i j col frag.sampled_depths covm)
      else r := rfl
  have hcondF : ∀ k : Fin 4, coverage_get covm k = false →
      ¬ (frag.sampled_depths k <
          (r.depth_buffers r.buf_idx).buffer (i * r.width + j) k ∧
        coverage_get ef.coverage_mask k = true) := by
    intro k hk hc
    rw [hkey k] at hk
    simp [hc.2, hc.1] at hk
  by_cases hany : ef.any_coverage
  · by_cases hz : covm = 0
    · have hr : r2 = r := by rw [hr2, if_pos hany, if_pos hz]
      have hzk : ∀ k : Fin 4, coverage_get covm k = false := by
        intro k
        rw [hz]
        exact coverage_get_zero k
      refine ⟨?_, ?_, by rw [hr], by rw [hr], by rw [hr],
        fun b => ⟨by rw [hr], by rw [hr], by rw [hr]⟩⟩
      · intro b idx2 k
        rw [hr, if_neg]
        rintro ⟨_, _, hc, hlt⟩
        exact hcondF k (hzk k) ⟨hlt, hc⟩
      · intro b idx2 k
        rw [hr, if_neg]
        rintro ⟨_, _, hc, hlt⟩
        exact hcondF k (hzk k) ⟨hlt, hc⟩
    · have hr : r2 = r.write_pixel i j col frag.sampled_depths covm := by
        rw [hr2, if_pos hany, if_neg hz]
      have hiff : ∀ k : Fin 4,
          (b : Fin 2) → (idx2 : ℕ) →
          ((b = r.buf_idx ∧ idx2 = i * r.width + j ∧
              coverage_get covm k = true) ↔
            (b = r.buf_idx ∧ idx2 = i * r.width + j ∧
              coverage_get ef.coverage_mask k = true ∧
              frag.sampled_depths k <
                (r.depth_buffers r.buf_idx).buffer (i * r.width + j) k)) := by
        intro k b idx2
        rw [hkey k]
        simp [Bool.and_eq_true, decide_eq_true_eq]
      refine ⟨?_, ?_, ?_, ?_, ?_, ?_⟩
      · intro b idx2 k
        rw [hr, write_pixel_depth]
        exact if_congr (hiff k b idx2) rfl rfl
      · intro b idx2 k
        rw [hr, write_pixel_color]
        exact if_congr (hiff k b idx2) rfl rfl
      · rw [hr]; exact (write_pixel_meta r i j col frag.sampled_depths covm).1
      · rw [hr]; exact (write_pixel_meta r i j col frag.sampled_depths covm).2.1
      · rw [hr]; exact (write_pixel_meta r i j col frag.sampled_depths covm).2.2
      · intro b
        rw [hr]
        exact write_pixel_untouched r i j col frag.sampled_depths covm b
  · have hr : r2 = r := by rw [hr2, if_neg hany]
    have hmask : ef.coverage_mask = 0 := by
      unfold EdgeFunctions.any_coverage at hany
      simpa using hany
    refine ⟨?_, ?_, by rw [hr], by rw [hr], by rw [hr],
      fun b => ⟨by rw [hr], by rw [hr], by rw [hr]⟩⟩
    · intro b idx2 k
      rw [hr, if_neg]
      rintro ⟨_, _, hc, _⟩
      rw [hmask] at hc
      simp [coverage_get_zero] at hc
    · intro b idx2 k
      rw [hr, if_neg]
      rintro ⟨_, _, hc, _⟩
      rw [hmask] at hc
      simp [coverage_get_zero] at hc

/-- The constant red fragment shader of the C3 frame. -/
def c3_fs : FragmentShader := fun _ _ => ⟨1, 0, 0, 1⟩

/-- The C3 frame draws one clip-space triangle covering the lower left half
    of a 1 by 1 buffer (screen corners (0,0), (1,1), (0,1)); its rotated
    grid samples 2 and 3 are covered. -/
def c3_tri : Triangle :=
  ⟨⟨-1, 1, 0, 1⟩, ⟨1, -1, 0, 1⟩, ⟨-1, -1, 0, 1⟩,
   red_attr, red_attr, red_attr⟩

/-- The rasterizer state after rasterizing the C3 frame into a fresh 1 by 1
    rasterizer (buffer set 0 is current). -/
def c3_state : Rasterizer :=
  Rasterizer.rasterize c3_fs (Rasterizer.new 1 1) [c3_tri]

/-- Bit table for the C3 evaluation: mask updates. -/
theorem c3_bit_set00 : coverage_set 0 0 false = 0 := by decide

/-- Bit table for the C3 evaluation. -/
theorem c3_bit_set01 : coverage_set 0 1 false = 0 := by decide

/-- Bit table for the C3 evaluation. -/
theorem c3_bit_set02 : coverage_set 0 2 true = 4 := by decide

/-- Bit table for the C3 evaluation. -/
theorem c3_bit_set43 : coverage_set 4 3 true = 12 := by decide

/-- Bit table for the C3 evaluation: reads of mask 12. -/
theorem c3_bit_get120 : coverage_get 12 0 = false := by decide

/-- Bit table for the C3 evaluation. -/
theorem c3_bit_get121 : coverage_get 12 1 = false := by decide

/-- Bit table for the C3 evaluation. -/
theorem c3_bit_get122 : coverage_get 12 2 = true := by decide

/-- Bit table for the C3 evaluation. -/
theorem c3_bit_get123 : coverage_get 12 3 = true := by decide

/-- Bit table for the C3 evaluation: packing the red shader color. -/
theorem c3_bit_pack_red :
    (255 : ℕ) <<< 24 ||| 255 <<< 16 ||| 0 <<< 8 ||| 0 = 0xFFFF0000 := by
  decide

/-- Bit table for the C3 evaluation: channel extraction from the clear
    color. -/
theorem c3_bit_clear_r : ((0xFF191919 : ℕ) &&& 0x00FF0000) >>> 16 = 25 := by
  decide

/-- Bit table for the C3 evaluation. -/
theorem c3_bit_clear_g : ((0xFF191919 : ℕ) &&& 0x0000FF00) >>> 8 = 25 := by
  decide

/-- Bit table for the C3 evaluation. -/
theorem c3_bit_clear_b : (0xFF191919 : ℕ) &&& 0x000000FF = 25 := by decide

/-- Bit table for the C3 evaluation: channel extraction from the written
    red. -/
theorem c3_bit_red_r : ((0xFFFF0000 : ℕ) &&& 0x00FF0000) >>> 16 = 255 := by
  decide

/-- Bit table for the C3 evaluation. -/
theorem c3_bit_red_g : ((0xFFFF0000 : ℕ) &&& 0x0000FF00) >>> 8 = 0 := by
  decide

/-- Bit table for the C3 evaluation. -/
theorem c3_bit_red_b : (0xFFFF0000 : ℕ) &&& 0x000000FF = 0 := by decide

/-- Bit table for the C3 evaluation: repacking the two resolve results. -/
theorem c3_bit_pack_clear :
    (255 : ℕ) <<< 24 ||| 25 <<< 16 ||| 25 <<< 8 ||| 25 = 0xFF191919 := by
  decide

/-- Bit table for the C3 evaluation. -/
theorem c3_bit_pack_avg :
    (255 : ℕ) <<< 24 ||| 140 <<< 16 ||| 12 <<< 8 ||| 12 = 0xFF8C0C0C := by
  decide

/-- Bit table for the C3 evaluation: integer to natural casts. -/
theorem c3_toNat_0 : (0 : ℤ).toNat = 0 := by decide

/-- Bit table for the C3 evaluation. -/
theorem c3_toNat_1 : (1 : ℤ).toNat = 1 := by decide

/-- Bit table for the C3 evaluation. -/
theorem c3_toNat_255 : (255 : ℤ).toNat = 255 := by decide


/-- Fin table for the C3 evaluation. -/
theorem c3_fin4_ne_01 : (0 : Fin 4) ≠ 1 := by decide

/-- Fin table for the C3 evaluation. -/
theorem c3_fin4_ne_02 : (0 : Fin 4) ≠ 2 := by decide

/-- Fin table for the C3 evaluation. -/
theorem c3_fin4_ne_03 : (0 : Fin 4) ≠ 3 := by decide

/-- Fin table for the C3 evaluation. -/
theorem c3_fin4_ne_10 : (1 : Fin 4) ≠ 0 := by decide

/-- Fin table for the C3 evaluation. -/
theorem c3_fin4_ne_12 : (1 : Fin 4) ≠ 2 := by decide

/-- Fin table for the C3 evaluation. -/
theorem c3_fin4_ne_13 : (1 : Fin 4) ≠ 3 := by decide

/-- Fin table for the C3 evaluation. -/
theorem c3_fin4_ne_20 : (2 : Fin 4) ≠ 0 := by decide

/-- Fin table for the C3 evaluation. -/
theorem c3_fin4_ne_21 : (2 : Fin 4) ≠ 1 := by decide

/-- Fin table for the C3 evaluation. -/
theorem c3_fin4_ne_23 : (2 : Fin 4) ≠ 3 := by decide

/-- Fin table for the C3 evaluation. -/
theorem c3_fin4_ne_30 : (3 : Fin 4) ≠ 0 := by decide

/-- Fin table for the C3 evaluation. -/
theorem c3_fin4_ne_31 : (3 : Fin 4) ≠ 1 := by decide

/-- Fin table for the C3 evaluation. -/
theorem c3_fin4_ne_32 : (3 : Fin 4) ≠ 2 := by decide

/-- Fin table for the C3 evaluation. -/
theorem c3_fin2_ne_01 : (0 : Fin 2) ≠ 1 := by decide

/-- Fin table for the C3 evaluation. -/
theorem c3_fin2_ne_10 : (1 : Fin 2) ≠ 0 := by decide

set_option maxHeartbeats 2000000 in
/-- C3: the frame rasterizes red into samples 2 and 3 of the single pixel of
    buffer set 0, yet swap_buffers returns the resolve of buffer set 1 (all
    clear color), because swap_buffers toggles buf_idx before calling
    resolve_and_clear, and resolve_and_clear ignores the passed previous
    index and resolves self.buf_idx.  The box filter of the buffer the frame
    actually wrote is 0xFF8C0C0C, not the returned 0xFF191919. -/
theorem c3_swap_resolves_wrong_buffer :
    (c3_state.color_buffers 0).buffer 0 2 = 0xFFFF0000 ∧
    (c3_state.color_buffers 0).buffer 0 3 = 0xFFFF0000 ∧
    (c3_state.color_buffers 1).buffer 0 2 = 0xFF191919 ∧
    c3_state.buf_idx = 0 ∧
    c3_state.swap_buffers.2 0 = 0xFF191919 ∧
    ColorBuffer.box_filter_color ((c3_state.color_buffers 0).buffer 0) =
      0xFF8C0C0C ∧
    (0xFF191919 : ℕ) ≠ 0xFF8C0C0C := by
  norm_num [c3_state, c3_tri, c3_fs, Rasterizer.rasterize,
    Rasterizer.rasterize_triangle, Rasterizer.can_cull, triangle_2x_area,
    Vec2.cross, Vec2.dot, Point2D.sub, Point4D.xy, Point3D.xy,
    CULL_DEGENERATE_TRIANGLE_AREA_EPS, abs_lt, Rasterizer.perspective_divide,
    Rasterizer.viewport_transform, viewport_new_vert, RasterizerTriangle.new,
    pixel_bounding_box, F32_MAX, min_def, max_def, List.range_succ,
    Rasterizer.rasterize_pixel, EdgeFunctions.eval, eval_step,
    EdgeFunctions.eval_single, sample_x, sample_y, RGSS_SAMPLE_PATTERN,
    EdgeFunctions.inside, inside_edge, EdgeFunctions.any_coverage,
    RasterizerTriangle.fragment, interpolate_depth, clamp_bary,
    Rasterizer.depth_coverage, dc_step, Rasterizer.write_pixel, wp_step,
    ColorBuffer.set_pixel, DepthBuffer.set_depth, DepthBuffer.get_depth,
    Function.update_same,
    Function.update_noteq,
    Fragment.interpolate, first_covered, Color.to_argb, f32_to_u32,
    Rasterizer.new, ColorBuffer.new, DepthBuffer.new, CLEAR_COLOR,
    CLEAR_DEPTH, Rasterizer.swap_buffers, Rasterizer.resolve_and_clear,
    ColorBuffer.box_filter_color, fin3, red_attr,
    c3_bit_set00, c3_bit_set01, c3_bit_set02, c3_bit_set43,
    c3_bit_get120, c3_bit_get121, c3_bit_get122, c3_bit_get123,
    c3_bit_pack_red, c3_bit_clear_r, c3_bit_clear_g, c3_bit_clear_b,
    c3_bit_red_r, c3_bit_red_g, c3_bit_red_b, c3_bit_pack_clear,
    c3_bit_pack_avg, c3_toNat_0, c3_toNat_1, c3_toNat_255,
    c3_fin4_ne_01, c3_fin4_ne_02, c3_fin4_ne_03, c3_fin4_ne_10, c3_fin4_ne_12, c3_fin4_ne_13, c3_fin4_ne_20, c3_fin4_ne_21, c3_fin4_ne_23, c3_fin4_ne_30, c3_fin4_ne_31, c3_fin4_ne_32, c3_fin2_ne_01, c3_fin2_ne_10]
  decide
